import Mathlib

/-!
Verification of the boot-image facade of `src/libmbp/bootimage.cpp`
(DualBootPatcher, libmbp).

Byte sequences are modelled as `List Nat` (each element an octet value),
32-bit machine integers as `Nat` with explicit `% 2^32` where the C++
performs wrapping arithmetic.  The facade (`BootImage`) is translated
directly from the source; the four format codecs (AndroidFormat,
BumpFormat, LokiFormat, SonyElfFormat) live in files that are not part of
`src/` and are modelled from the specification, as indicated by their doc
comments.
-/

set_option maxRecDepth 1000000

namespace Mbp

/-! ## Byte-level helpers -/

/-- Little-endian serialisation of a 32-bit value into four octets
(faithful to writing a `uint32_t` to a little-endian byte stream). -/
def le32 (x : Nat) : List Nat :=
  [x % 256, x / 256 % 256, x / 65536 % 256, x / 16777216 % 256]

/-- Read four octets as a little-endian 32-bit value together with the
remaining bytes; fails when fewer than four bytes remain. -/
def take4 : List Nat → Option (Nat × List Nat)
  | a :: b :: c :: d :: r => some (a + 256 * (b + 256 * (c + 256 * d)), r)
  | _ => none

/-- Read `n` raw bytes, returning them with the remaining bytes;
fails when fewer than `n` bytes remain. -/
def takeN (n : Nat) (l : List Nat) : Option (List Nat × List Nat) :=
  if n ≤ l.length then some (l.take n, l.drop n) else none

/-- Read `n` bytes at absolute offset `off`; fails when the read would run
past the end of the data (C++ reads from an exact in-memory buffer). -/
def extractB (l : List Nat) (off n : Nat) : Option (List Nat) :=
  if off + n ≤ l.length then some ((l.drop off).take n) else none

/-- Bytes of a NUL-padded fixed field up to (excluding) the first NUL,
as reading a C string out of a header field does. -/
def cString (l : List Nat) : List Nat :=
  l.takeWhile (fun b => b ≠ 0)

/-- Emit a string into an `n`-byte NUL-padded header field: at most `n - 1`
bytes of the string and at least one terminating NUL. -/
def fixedField (s : List Nat) (n : Nat) : List Nat :=
  s.take (n - 1) ++ List.replicate (n - min (n - 1) s.length) 0

/-- Round `n` up to the next multiple of the page size `p`
(`n` itself when it is already a multiple). -/
def alignUp (n p : Nat) : Nat :=
  if n % p = 0 then n else n + (p - n % p)

/-- Pad a byte sequence with NULs to the next multiple of the page size. -/
def padTo (l : List Nat) (p : Nat) : List Nat :=
  l ++ List.replicate (alignUp l.length p - l.length) 0

/-! ## SHA-1 (external/sha.h, standard algorithm; executable model) -/

/-- 32-bit left rotation. -/
def rotl (n x : Nat) : Nat :=
  ((x <<< n) ||| (x >>> (32 - n))) % 4294967296

/-- Big-endian serialisation of a 32-bit value into four octets. -/
def be32 (x : Nat) : List Nat :=
  [x / 16777216 % 256, x / 65536 % 256, x / 256 % 256, x % 256]

/-- Big-endian serialisation of a 64-bit value into eight octets. -/
def be64 (x : Nat) : List Nat :=
  [x / 2 ^ 56 % 256, x / 2 ^ 48 % 256, x / 2 ^ 40 % 256, x / 2 ^ 32 % 256,
   x / 16777216 % 256, x / 65536 % 256, x / 256 % 256, x % 256]

/-- SHA-1 message padding: `0x80`, zeros to 56 mod 64, then the bit length
as a big-endian 64-bit value. -/
def sha1Pad (msg : List Nat) : List Nat :=
  msg ++ [128] ++ List.replicate ((119 - msg.length % 64) % 64) 0
      ++ be64 (8 * msg.length)

/-- Group a byte sequence into big-endian 32-bit words (the tail shorter
than four bytes, never present after padding, is dropped). -/
def toWordsBE : List Nat → List Nat
  | a :: b :: c :: d :: r =>
      (16777216 * a + 65536 * b + 256 * c + d) :: toWordsBE r
  | _ => []

/-- Message-schedule extension: starting from the reversed 16-word block,
prepend `k` further words `rotl 1 (w3 ^^^ w8 ^^^ w14 ^^^ w16)`. -/
def sha1Extend (racc : List Nat) : Nat → List Nat
  | 0 => racc
  | k + 1 =>
      sha1Extend ((rotl 1 (racc.getD 2 0 ^^^ racc.getD 7 0 ^^^
        racc.getD 13 0 ^^^ racc.getD 15 0)) :: racc) k

/-- One SHA-1 round: the round function and constant depend on the round
index `t`; all arithmetic is modulo 2^32. -/
def sha1Round (t a b c d e w : Nat) : Nat × Nat × Nat × Nat × Nat :=
  let f :=
    if t < 20 then (b &&& c) ||| (((b ^^^ 4294967295)) &&& d)
    else if t < 40 then b ^^^ c ^^^ d
    else if t < 60 then (b &&& c) ||| (b &&& d) ||| (c &&& d)
    else b ^^^ c ^^^ d
  let k :=
    if t < 20 then 1518500249
    else if t < 40 then 1859775393
    else if t < 60 then 2400959708
    else 3395469782
  let temp := (rotl 5 a + f + e + k + w) % 4294967296
  (temp, a, rotl 30 b, c, d)

/-- Run the 80 rounds of a block over the extended schedule. -/
def sha1Rounds (t : Nat) (st : Nat × Nat × Nat × Nat × Nat) :
    List Nat → Nat × Nat × Nat × Nat × Nat
  | [] => st
  | w :: ws =>
      let (a, b, c, d, e) := st
      sha1Rounds (t + 1) (sha1Round t a b c d e w) ws

/-- Compress one 16-word block into the running state. -/
def sha1Block (st : Nat × Nat × Nat × Nat × Nat) (block : List Nat) :
    Nat × Nat × Nat × Nat × Nat :=
  let (h0, h1, h2, h3, h4) := st
  let sched := (sha1Extend block.reverse 64).reverse
  let (a, b, c, d, e) := sha1Rounds 0 st sched
  ((h0 + a) % 4294967296, (h1 + b) % 4294967296, (h2 + c) % 4294967296,
   (h3 + d) % 4294967296, (h4 + e) % 4294967296)

/-- Process the padded message, 16 words at a time (a padded message is
always a whole number of 16-word blocks). -/
def sha1Loop (st : Nat × Nat × Nat × Nat × Nat) :
    List Nat → Nat × Nat × Nat × Nat × Nat
  | w0 :: w1 :: w2 :: w3 :: w4 :: w5 :: w6 :: w7 ::
    w8 :: w9 :: w10 :: w11 :: w12 :: w13 :: w14 :: w15 :: rest =>
      sha1Loop (sha1Block st
        [w0, w1, w2, w3, w4, w5, w6, w7, w8, w9, w10, w11, w12, w13, w14, w15])
        rest
  | _ => st

/-- The 20-byte SHA-1 digest of a byte sequence. -/
def sha1Bytes (msg : List Nat) : List Nat :=
  let (h0, h1, h2, h3, h4) :=
    sha1Loop (1732584193, 4023233417, 2562383102, 271733878, 3285377520)
      (toWordsBE (sha1Pad msg))
  be32 h0 ++ be32 h1 ++ be32 h2 ++ be32 h3 ++ be32 h4

/-! ## The intermediate model -/

/-- The eight 32-bit words of the `id` field of the Android header
(`uint32_t hdrId[8]` in the intermediate). -/
structure Id8 where
  w0 : Nat
  w1 : Nat
  w2 : Nat
  w3 : Nat
  w4 : Nat
  w5 : Nat
  w6 : Nat
  w7 : Nat
  deriving DecidableEq, Repr

/-- Read eight little-endian words out of a 32-byte sequence. -/
def id8FromBytes (l : List Nat) : Id8 :=
  let rd := fun k => ((l.drop k).take 4).foldr (fun b acc => b + 256 * acc) 0
  ⟨rd 0, rd 4, rd 8, rd 12, rd 16, rd 20, rd 24, rd 28⟩

/-- The neutral in-memory representation `BootImageIntermediate` shared by
all codecs (field set taken from its uses in `bootimage.cpp`). -/
structure BootImageIntermediate where
  boardName : List Nat
  cmdline : List Nat
  kernelAddr : Nat
  ramdiskAddr : Nat
  secondAddr : Nat
  tagsAddr : Nat
  iplAddr : Nat
  rpmAddr : Nat
  appsblAddr : Nat
  hdrEntrypoint : Nat
  hdrKernelSize : Nat
  hdrRamdiskSize : Nat
  hdrSecondSize : Nat
  hdrDtSize : Nat
  pageSize : Nat
  hdrUnused : Nat
  hdrId : Id8
  kernelImage : List Nat
  ramdiskImage : List Nat
  secondImage : List Nat
  dtImage : List Nat
  abootImage : List Nat
  iplImage : List Nat
  rpmImage : List Nat
  appsblImage : List Nat
  sonySinImage : List Nat
  sonySinHdr : List Nat
  deriving DecidableEq, Repr

/-- Modelled from the spec: the in-class initialisers of
`BootImageIntermediate` (its header is not under `src/`): all payloads
empty, all size fields 0, `id` all zero, all scalars 0, empty strings. -/
def initIntermediate : BootImageIntermediate where
  boardName := []
  cmdline := []
  kernelAddr := 0
  ramdiskAddr := 0
  secondAddr := 0
  tagsAddr := 0
  iplAddr := 0
  rpmAddr := 0
  appsblAddr := 0
  hdrEntrypoint := 0
  hdrKernelSize := 0
  hdrRamdiskSize := 0
  hdrSecondSize := 0
  hdrDtSize := 0
  pageSize := 0
  hdrUnused := 0
  hdrId := ⟨0, 0, 0, 0, 0, 0, 0, 0⟩
  kernelImage := []
  ramdiskImage := []
  secondImage := []
  dtImage := []
  abootImage := []
  iplImage := []
  rpmImage := []
  appsblImage := []
  sonySinImage := []
  sonySinHdr := []

/-! ## Android codec (spec §4.4) -/

/-- The 8-byte boot magic `"ANDROID!"`. -/
def androidMagic : List Nat := [65, 78, 68, 82, 79, 73, 68, 33]

/-- Whether the 8-byte Android magic sits (entirely in bounds) at offset
`o` of the data. -/
def androidMagicAt (d : List Nat) (o : Nat) : Bool :=
  extractB d o 8 == some androidMagic

/-- Scan offsets `o, o+1, ...` (at most `fuel` of them) for the Android
magic, returning the first hit. -/
def findHdrAux (d : List Nat) (o : Nat) : Nat → Option Nat
  | 0 => none
  | fuel + 1 =>
      if androidMagicAt d o then some o else findHdrAux d (o + 1) fuel

/-- Modelled from the spec: Android detection scans the first
`MAX_HEADER_OFFSET` (512) bytes for the magic; the found offset is the
header origin. -/
def findAndroidHeader (d : List Nat) : Option Nat :=
  findHdrAux d 0 512

/-- Modelled from the spec: the Android detector claims the image exactly
when the magic scan succeeds. -/
def androidIsValid (d : List Nat) : Bool :=
  (findAndroidHeader d).isSome

/-- The allowed page sizes (spec §3: one of seven powers of two). -/
def allowedPageSizes : List Nat :=
  [2048, 4096, 8192, 16384, 32768, 65536, 131072]

/-- The scalar fields and raw string fields of an Android header. -/
structure AHdr where
  ks : Nat
  ka : Nat
  rs : Nat
  ra : Nat
  ss : Nat
  sa : Nat
  ta : Nat
  ps : Nat
  dts : Nat
  un : Nat
  board : List Nat
  cmd : List Nat
  idb : List Nat
  deriving Repr

/-- Modelled from the spec: parse the packed 608-byte Android header
(§4.4's layout table) sequentially, validating the magic. -/
def parseAHdr (l : List Nat) : Option AHdr :=
  match takeN 8 l with
  | none => none
  | some (magicB, r) =>
  if magicB = androidMagic then
    match take4 r with
    | none => none
    | some (ks, r) =>
    match take4 r with
    | none => none
    | some (ka, r) =>
    match take4 r with
    | none => none
    | some (rs, r) =>
    match take4 r with
    | none => none
    | some (ra, r) =>
    match take4 r with
    | none => none
    | some (ss, r) =>
    match take4 r with
    | none => none
    | some (sa, r) =>
    match take4 r with
    | none => none
    | some (ta, r) =>
    match take4 r with
    | none => none
    | some (ps, r) =>
    match take4 r with
    | none => none
    | some (dts, r) =>
    match take4 r with
    | none => none
    | some (un, r) =>
    match takeN 16 r with
    | none => none
    | some (board, r) =>
    match takeN 512 r with
    | none => none
    | some (cmd, r) =>
    match takeN 32 r with
    | none => none
    | some (idb, _) =>
      some ⟨ks, ka, rs, ra, ss, sa, ta, ps, dts, un, board, cmd, idb⟩
  else none

/-- Modelled from the spec (§4.4 decoding): find the header origin, parse
the header, validate the page size, then read each payload of its declared
size at the page-aligned offsets relative to the origin.  Fields unused by
the format are left at their previous values (spec §9). -/
def androidLoadImage (i : BootImageIntermediate) (d : List Nat) :
    Option BootImageIntermediate :=
  (findAndroidHeader d).bind fun o =>
  let rel := d.drop o
  (parseAHdr rel).bind fun h =>
  if h.ps ∈ allowedPageSizes then
    let c0 := h.ps
    (extractB rel c0 h.ks).bind fun kernel =>
    let c1 := c0 + alignUp h.ks h.ps
    (extractB rel c1 h.rs).bind fun ramdisk =>
    let c2 := c1 + alignUp h.rs h.ps
    (extractB rel c2 h.ss).bind fun second =>
    let c3 := c2 + alignUp h.ss h.ps
    (extractB rel c3 h.dts).bind fun dt =>
    some { i with
      boardName := cString h.board
      cmdline := cString h.cmd
      kernelAddr := h.ka
      ramdiskAddr := h.ra
      secondAddr := h.sa
      tagsAddr := h.ta
      pageSize := h.ps
      hdrUnused := h.un
      hdrKernelSize := h.ks
      hdrRamdiskSize := h.rs
      hdrSecondSize := h.ss
      hdrDtSize := h.dts
      hdrId := id8FromBytes h.idb
      kernelImage := kernel
      ramdiskImage := ramdisk
      secondImage := second
      dtImage := dt }
  else none

/-- Modelled from the spec (§4.4 encoding): the SHA-1 input is the payload
bytes each followed by its size as a little-endian word; the device tree
and its size are fed only when `dt_size > 0`. -/
def androidHashInput (i : BootImageIntermediate) : List Nat :=
  i.kernelImage ++ le32 i.hdrKernelSize ++
  i.ramdiskImage ++ le32 i.hdrRamdiskSize ++
  i.secondImage ++ le32 i.hdrSecondSize ++
  (if i.hdrDtSize ≠ 0 then i.dtImage ++ le32 i.hdrDtSize else [])

/-- The 32 id bytes written on canonical creation: the 20-byte SHA-1
digest then 12 zero bytes (words 5-7 zeroed). -/
def androidIdBytes (i : BootImageIntermediate) : List Nat :=
  sha1Bytes (androidHashInput i) ++ List.replicate 12 0

/-- The canonical id words a `create()` targeting an Android-based
container produces, as they read back out of the header. -/
def androidIdWords (i : BootImageIntermediate) : Id8 :=
  id8FromBytes (androidIdBytes i)

/-- The 608-byte Android header for a model, with the id rebuilt from the
payload hash and the string fields truncated into their NUL-padded
fields. -/
def androidHdrBytes (i : BootImageIntermediate) : List Nat :=
  androidMagic ++
  le32 i.hdrKernelSize ++ le32 i.kernelAddr ++
  le32 i.hdrRamdiskSize ++ le32 i.ramdiskAddr ++
  le32 i.hdrSecondSize ++ le32 i.secondAddr ++
  le32 i.tagsAddr ++ le32 i.pageSize ++
  le32 i.hdrDtSize ++ le32 i.hdrUnused ++
  fixedField i.boardName 16 ++ fixedField i.cmdline 512 ++
  androidIdBytes i

/-- Modelled from the spec (§4.4 encoding): header page followed by each
payload rounded up to the page size with NUL padding; a missing payload
occupies zero pages.  Encoding never fails (§4.8). -/
def androidCreateImage (i : BootImageIntermediate) : List Nat :=
  padTo (androidHdrBytes i) i.pageSize ++
  padTo i.kernelImage i.pageSize ++
  padTo i.ramdiskImage i.pageSize ++
  padTo i.secondImage i.pageSize ++
  padTo i.dtImage i.pageSize

/-! ## Bump codec (spec §4.5) -/

/-- Modelled from the spec: the ASCII trailer tag `"\nSEANDROIDENFORCE"`
appended by the Bump tool. -/
def bumpMagic : List Nat :=
  [10, 83, 69, 65, 78, 68, 82, 79, 73, 68, 69, 78, 70, 79, 82, 67, 69]

/-- Whether `l` ends with the byte sequence `t`. -/
def endsWithBytes (t l : List Nat) : Bool :=
  decide (t.length ≤ l.length) && (l.drop (l.length - t.length) == t)

/-- Modelled from the spec: a Bump image ends with the trailer and the
preceding bytes form a valid Android image. -/
def bumpIsValid (d : List Nat) : Bool :=
  endsWithBytes bumpMagic d &&
    androidIsValid (d.take (d.length - bumpMagic.length))

/-- Modelled from the spec: strip the trailer and delegate to the Android
codec. -/
def bumpLoadImage (i : BootImageIntermediate) (d : List Nat) :
    Option BootImageIntermediate :=
  if endsWithBytes bumpMagic d then
    androidLoadImage i (d.take (d.length - bumpMagic.length))
  else none

/-- Modelled from the spec: produce an Android image, then append the
trailer. -/
def bumpCreateImage (i : BootImageIntermediate) : List Nat :=
  androidCreateImage i ++ bumpMagic

/-! ## Loki codec (spec §4.6)

The Loki header layout past its magic and the old-style recovery
heuristic are only loosely prescribed by the spec ("the implementer
chooses any of the equivalent recovery heuristics"); the definitions
below fix one concrete choice and document it. -/

/-- The 4-byte Loki magic `"LOKI"`. -/
def lokiMagicBytes : List Nat := [76, 79, 75, 73]

/-- The fixed offset of the Loki magic past the Android header (spec:
"typically offset 0x400"). -/
def lokiMagicOffset : Nat := 1024

/-- Modelled from the spec: detection requires the Android magic at
offset 0 and the Loki magic at the fixed offset 0x400. -/
def lokiIsValid (d : List Nat) : Bool :=
  androidMagicAt d 0 && (extractB d lokiMagicOffset 4 == some lokiMagicBytes)

/-- Drop trailing zero bytes (the spec's "trimming trailing zeros" step of
old-style ramdisk recovery). -/
def dropTrailingZeros (l : List Nat) : List Nat :=
  (l.reverse.dropWhile (fun b => b = 0)).reverse

/-- Little-endian 32-bit read at an absolute offset; fails out of
bounds. -/
def readLe32At (d : List Nat) (off : Nat) : Option Nat := do
  let bytes ← extractB d off 4
  let (v, _) ← take4 bytes
  some v

/-- Modelled from the spec (§4.6 decoding): read the Android header at
offset 0 and the Loki header at 0x400 (chosen layout: magic, recovery
flag, original ramdisk address, original kernel size, original ramdisk
size, aboot offset, aboot size, each a little-endian word); when both
original sizes are non-zero use them directly, otherwise recover the
kernel size from the word at kernel offset 0x2C and the ramdisk by
scanning to end-of-file and trimming trailing zeros; extract `aboot` when
a non-zero offset and size are indicated. -/
def lokiLoadImage (i : BootImageIntermediate) (d : List Nat) :
    Option BootImageIntermediate := do
  let h ← parseAHdr d
  if h.ps ∈ allowedPageSizes then
    let origRamdiskAddr ← readLe32At d (lokiMagicOffset + 8)
    let origKernelSize ← readLe32At d (lokiMagicOffset + 12)
    let origRamdiskSize ← readLe32At d (lokiMagicOffset + 16)
    let abootOffset ← readLe32At d (lokiMagicOffset + 20)
    let abootSize ← readLe32At d (lokiMagicOffset + 24)
    let (ks, rsize, ramdisk) ←
      if origKernelSize ≠ 0 ∧ origRamdiskSize ≠ 0 then do
        let rd ← extractB d (h.ps + alignUp origKernelSize h.ps)
            origRamdiskSize
        some (origKernelSize, origRamdiskSize, rd)
      else do
        let ks ← readLe32At d (h.ps + 44)
        let rd := dropTrailingZeros (d.drop (h.ps + alignUp ks h.ps))
        some (ks, rd.length, rd)
    let kernel ← extractB d h.ps ks
    let aboot ←
      if abootOffset ≠ 0 ∧ abootSize ≠ 0 then extractB d abootOffset abootSize
      else some i.abootImage
    some { i with
      boardName := cString h.board
      cmdline := cString h.cmd
      kernelAddr := h.ka
      ramdiskAddr := origRamdiskAddr
      secondAddr := h.sa
      tagsAddr := h.ta
      pageSize := h.ps
      hdrUnused := h.un
      hdrKernelSize := ks
      hdrRamdiskSize := rsize
      hdrSecondSize := 0
      hdrDtSize := h.dts
      hdrId := id8FromBytes h.idb
      kernelImage := kernel
      ramdiskImage := ramdisk
      secondImage := []
      abootImage := aboot }
  else none

/-- Modelled from the spec (§4.6 encoding): produce a canonical Android
image and append a Loki header structure; the device-dependent kernel
byte patches driven by the `aboot` signature are abstracted away (the
spec leaves their exact bytes to the target device). -/
def lokiCreateImage (i : BootImageIntermediate) : List Nat :=
  androidCreateImage i ++ lokiMagicBytes ++ le32 0 ++
    le32 i.ramdiskAddr ++ le32 i.hdrKernelSize ++ le32 i.hdrRamdiskSize

/-! ## Sony ELF32 codec (spec §4.7)

The Sony-specific `p_flags` type markers are a vendor convention whose
numeric values the spec does not give; the model fixes them as
kernel = 1, ramdisk = 2, ipl = 3, rpm = 4, appsbl = 5, sin = 6. -/

/-- Little-endian 16-bit read at an absolute offset; fails out of
bounds. -/
def readLe16At (d : List Nat) (off : Nat) : Option Nat := do
  let bytes ← extractB d off 2
  match bytes with
  | [a, b] => some (a + 256 * b)
  | _ => none

/-- Modelled from the spec: ELF32 magic, 32-bit class, little-endian,
type `ET_EXEC`. -/
def sonyElfIsValid (d : List Nat) : Bool :=
  (extractB d 0 6 == some [127, 69, 76, 70, 1, 1]) &&
    (readLe16At d 16 == some 2)

/-- Apply one decoded program segment to the intermediate according to
its `p_flags` type marker. -/
def sonyElfApplySeg (i : BootImageIntermediate)
    (flags vaddr : Nat) (payload hdrBytes : List Nat) :
    BootImageIntermediate :=
  if flags = 1 then
    { i with kernelImage := payload, hdrKernelSize := payload.length,
             kernelAddr := vaddr }
  else if flags = 2 then
    { i with ramdiskImage := payload, hdrRamdiskSize := payload.length,
             ramdiskAddr := vaddr }
  else if flags = 3 then
    { i with iplImage := payload, iplAddr := vaddr }
  else if flags = 4 then
    { i with rpmImage := payload, rpmAddr := vaddr }
  else if flags = 5 then
    { i with appsblImage := payload, appsblAddr := vaddr }
  else if flags = 6 then
    { i with sonySinImage := payload, sonySinHdr := hdrBytes }
  else i

/-- Decode the program headers at indices `ks`, copying each segment's
bytes into the correspondingly tagged payload field. -/
def sonyElfSegs (d : List Nat) (phoff : Nat) :
    BootImageIntermediate → List Nat → Option BootImageIntermediate
  | i, [] => some i
  | i, k :: ks => do
      let ph ← extractB d (phoff + 32 * k) 32
      let pOffset ← readLe32At ph 4
      let pVaddr ← readLe32At ph 8
      let pFilesz ← readLe32At ph 16
      let pFlags ← readLe32At ph 24
      let payload ← extractB d pOffset pFilesz
      sonyElfSegs d phoff (sonyElfApplySeg i pFlags pVaddr payload ph) ks

/-- Modelled from the spec (§4.7 decoding): parse the ELF header
(`e_entry` into the entrypoint, `e_phoff`, `e_phnum`), then each program
header. -/
def sonyElfLoadImage (i : BootImageIntermediate) (d : List Nat) :
    Option BootImageIntermediate := do
  if 52 ≤ d.length then
    let entry ← readLe32At d 24
    let phoff ← readLe32At d 28
    let phnum ← readLe16At d 44
    let i' ← sonyElfSegs d phoff i (List.range phnum)
    some { i' with hdrEntrypoint := entry }
  else none

/-- One synthesised program header for the Sony ELF encoder. -/
def sonyElfPhdr (ptype offset vaddr filesz flags align : Nat) : List Nat :=
  le32 ptype ++ le32 offset ++ le32 vaddr ++ le32 vaddr ++
    le32 filesz ++ le32 filesz ++ le32 flags ++ le32 align

/-- Modelled from the spec (§4.7 encoding): ELF header with
`e_entry = entrypoint`, program headers for the present payloads in the
order kernel, ramdisk, ipl, rpm, appsbl, sin (absent payloads omit their
entry), payload bytes packed sequentially after all headers. -/
def sonyElfCreateImage (i : BootImageIntermediate) : List Nat :=
  let segs : List (Nat × Nat × List Nat) :=
    ((if i.kernelImage.isEmpty then [] else [(1, i.kernelAddr, i.kernelImage)]) ++
     (if i.ramdiskImage.isEmpty then [] else [(2, i.ramdiskAddr, i.ramdiskImage)]) ++
     (if i.iplImage.isEmpty then [] else [(3, i.iplAddr, i.iplImage)]) ++
     (if i.rpmImage.isEmpty then [] else [(4, i.rpmAddr, i.rpmImage)]) ++
     (if i.appsblImage.isEmpty then [] else [(5, i.appsblAddr, i.appsblImage)]) ++
     (if i.sonySinImage.isEmpty then [] else [(6, 0, i.sonySinImage)]))
  let n := segs.length
  let hdrEnd := 52 + 32 * n
  let offsets := segs.foldl
    (fun (acc : List Nat × Nat) s => (acc.1 ++ [acc.2], acc.2 + s.2.2.length))
    ([], hdrEnd)
  let ehdr :=
    [127, 69, 76, 70, 1, 1, 1, 0, 0, 0, 0, 0, 0, 0, 0, 0] ++
    le32 2 ++ le32 (40 <<< 16) ++ -- e_type=ET_EXEC, e_machine=ARM, e_version
    le32 i.hdrEntrypoint ++ le32 52 ++ le32 0 ++ le32 0 ++
    [52 % 256, 0, 32, 0] ++ le32 n ++ [0, 0, 0, 0, 0, 0]
  let phdrs := (segs.zip offsets.1).map
    (fun s => sonyElfPhdr 1 s.2 s.1.2.1 s.1.2.2.length s.1.1 0)
  ehdr ++ phdrs.flatten ++ (segs.map (fun s => s.2.2)).flatten

/-! ## The facade: `BootImage` (bootimage.cpp) -/

/-- Modelled from the spec: the `Type` enumeration `{Android, Loki, Bump,
SonyElf}`.  Its C++ header is not under `src/`; the underlying values 0-3
follow default C++ enum numbering, other naturals are the out-of-range
values a cast can produce. -/
def tAndroid : Nat := 0

/-- Underlying value of `Type::Loki` (see `tAndroid`). -/
def tLoki : Nat := 1

/-- Underlying value of `Type::Bump` (see `tAndroid`). -/
def tBump : Nat := 2

/-- Underlying value of `Type::SonyElf` (see `tAndroid`). -/
def tSonyElf : Nat := 3

/-- The error codes the core emits (spec §6; `ErrorCode` is declared
outside `src/`). `NoError` stands for the default-constructed record. -/
inductive ErrorCode where
  | NoError
  | BootImageParseError
  | FileOpenError
  | FileWriteError
  | FileReadError
  deriving DecidableEq, Repr

/-- The queryable error record stored by the facade (`PatcherError`,
declared outside `src/`; only its code matters here). -/
structure PatcherError where
  code : ErrorCode
  deriving DecidableEq, Repr

/-- `PatcherError::createBootImageError`. -/
def PatcherError.createBootImageError (c : ErrorCode) : PatcherError := ⟨c⟩

/-- The state of `BootImage::Impl`: the intermediate, the target type,
the source type and the error record. -/
structure BootImage where
  i10e : BootImageIntermediate
  type : Nat
  sourceType : Nat
  error : PatcherError
  deriving DecidableEq, Repr

namespace BootImage

/-- Default constants of `BootImage` (bootimage.cpp lines 46-57). -/
def DefaultPageSize : Nat := 2048

/-- Default base address `0x10000000`. -/
def DefaultBase : Nat := 0x10000000

/-- Default kernel offset `0x00008000`. -/
def DefaultKernelOffset : Nat := 0x00008000

/-- Default ramdisk offset `0x01000000`. -/
def DefaultRamdiskOffset : Nat := 0x01000000

/-- Default second bootloader offset `0x00f00000`. -/
def DefaultSecondOffset : Nat := 0x00f00000

/-- Default kernel tags offset `0x00000100`. -/
def DefaultTagsOffset : Nat := 0x00000100

/-- `BootImage::setBoardName`. -/
def setBoardName (st : BootImage) (name : List Nat) : BootImage :=
  { st with i10e.boardName := name }

/-- `BootImage::boardName`. -/
def boardName (st : BootImage) : List Nat :=
  st.i10e.boardName

/-- `BootImage::resetBoardName` (empty by default). -/
def resetBoardName (st : BootImage) : BootImage :=
  st.setBoardName []

/-- `BootImage::setKernelCmdline`. -/
def setKernelCmdline (st : BootImage) (cmdline : List Nat) : BootImage :=
  { st with i10e.cmdline := cmdline }

/-- `BootImage::kernelCmdline`. -/
def kernelCmdline (st : BootImage) : List Nat :=
  st.i10e.cmdline

/-- `BootImage::resetKernelCmdline` (empty by default). -/
def resetKernelCmdline (st : BootImage) : BootImage :=
  st.setKernelCmdline []

/-- `BootImage::setPageSize`. -/
def setPageSize (st : BootImage) (size : Nat) : BootImage :=
  { st with i10e.pageSize := size }

/-- `BootImage::resetPageSize`. -/
def resetPageSize (st : BootImage) : BootImage :=
  st.setPageSize DefaultPageSize

/-- `BootImage::setKernelAddress`. -/
def setKernelAddress (st : BootImage) (address : Nat) : BootImage :=
  { st with i10e.kernelAddr := address }

/-- `BootImage::resetKernelAddress` (the `uint32_t` sum cannot wrap for
the default constants, the `% 2^32` mirrors the machine arithmetic). -/
def resetKernelAddress (st : BootImage) : BootImage :=
  st.setKernelAddress ((DefaultBase + DefaultKernelOffset) % 4294967296)

/-- `BootImage::setRamdiskAddress`. -/
def setRamdiskAddress (st : BootImage) (address : Nat) : BootImage :=
  { st with i10e.ramdiskAddr := address }

/-- `BootImage::resetRamdiskAddress`. -/
def resetRamdiskAddress (st : BootImage) : BootImage :=
  st.setRamdiskAddress ((DefaultBase + DefaultRamdiskOffset) % 4294967296)

/-- `BootImage::setSecondBootloaderAddress`. -/
def setSecondBootloaderAddress (st : BootImage) (address : Nat) : BootImage :=
  { st with i10e.secondAddr := address }

/-- `BootImage::resetSecondBootloaderAddress`. -/
def resetSecondBootloaderAddress (st : BootImage) : BootImage :=
  st.setSecondBootloaderAddress ((DefaultBase + DefaultSecondOffset) % 4294967296)

/-- `BootImage::setKernelTagsAddress`. -/
def setKernelTagsAddress (st : BootImage) (address : Nat) : BootImage :=
  { st with i10e.tagsAddr := address }

/-- `BootImage::resetKernelTagsAddress`. -/
def resetKernelTagsAddress (st : BootImage) : BootImage :=
  st.setKernelTagsAddress ((DefaultBase + DefaultTagsOffset) % 4294967296)

/-- `BootImage::setIplAddress`. -/
def setIplAddress (st : BootImage) (address : Nat) : BootImage :=
  { st with i10e.iplAddr := address }

/-- `BootImage::resetIplAddress` (default 0). -/
def resetIplAddress (st : BootImage) : BootImage :=
  st.setIplAddress 0

/-- `BootImage::setRpmAddress`. -/
def setRpmAddress (st : BootImage) (address : Nat) : BootImage :=
  { st with i10e.rpmAddr := address }

/-- `BootImage::resetRpmAddress` (default 0). -/
def resetRpmAddress (st : BootImage) : BootImage :=
  st.setRpmAddress 0

/-- `BootImage::setAppsblAddress`. -/
def setAppsblAddress (st : BootImage) (address : Nat) : BootImage :=
  { st with i10e.appsblAddr := address }

/-- `BootImage::resetAppsblAddress` (default 0). -/
def resetAppsblAddress (st : BootImage) : BootImage :=
  st.setAppsblAddress 0

/-- `BootImage::setEntrypointAddress`. -/
def setEntrypointAddress (st : BootImage) (address : Nat) : BootImage :=
  { st with i10e.hdrEntrypoint := address }

/-- `BootImage::resetEntrypointAddress` (default 0). -/
def resetEntrypointAddress (st : BootImage) : BootImage :=
  st.setEntrypointAddress 0

/-- `BootImage::setAddresses`: the four address fields from a base plus
offsets; the C++ sums are `uint32_t` additions, hence the `% 2^32`. -/
def setAddresses (st : BootImage) (base kernelOffset ramdiskOffset
    secondBootloaderOffset kernelTagsOffset : Nat) : BootImage :=
  ((((st.setKernelAddress ((base + kernelOffset) % 4294967296)).setRamdiskAddress
      ((base + ramdiskOffset) % 4294967296)).setSecondBootloaderAddress
      ((base + secondBootloaderOffset) % 4294967296)).setKernelTagsAddress
      ((base + kernelTagsOffset) % 4294967296))

/-- `BootImage::setKernelImage`: updates the header size field together
with the stored blob. -/
def setKernelImage (st : BootImage) (data : List Nat) : BootImage :=
  { st with i10e.hdrKernelSize := data.length, i10e.kernelImage := data }

/-- `BootImage::setRamdiskImage`. -/
def setRamdiskImage (st : BootImage) (data : List Nat) : BootImage :=
  { st with i10e.hdrRamdiskSize := data.length, i10e.ramdiskImage := data }

/-- `BootImage::setSecondBootloaderImage`. -/
def setSecondBootloaderImage (st : BootImage) (data : List Nat) : BootImage :=
  { st with i10e.hdrSecondSize := data.length, i10e.secondImage := data }

/-- `BootImage::setDeviceTreeImage`. -/
def setDeviceTreeImage (st : BootImage) (data : List Nat) : BootImage :=
  { st with i10e.hdrDtSize := data.length, i10e.dtImage := data }

/-- `BootImage::setAbootImage` (no size field). -/
def setAbootImage (st : BootImage) (data : List Nat) : BootImage :=
  { st with i10e.abootImage := data }

/-- The constructor `BootImage::BootImage`: the intermediate's in-class
defaults, then the resets, then `hdrUnused = 0`; the target type defaults
to `Type::Android` (`Impl`), the source type is uninitialised in C++ and
modelled arbitrarily as Android, the error record default-constructed. -/
def mk0 : BootImage :=
  let st : BootImage :=
    { i10e := initIntermediate, type := tAndroid, sourceType := tAndroid,
      error := ⟨ErrorCode.NoError⟩ }
  let st := st.resetKernelCmdline
  let st := st.resetBoardName
  let st := st.resetKernelAddress
  let st := st.resetRamdiskAddress
  let st := st.resetSecondBootloaderAddress
  let st := st.resetKernelTagsAddress
  let st := st.resetIplAddress
  let st := st.resetRpmAddress
  let st := st.resetAppsblAddress
  let st := st.resetEntrypointAddress
  let st := st.resetPageSize
  { st with i10e.hdrUnused := 0 }

/-- `BootImage::error`. -/
def error' (st : BootImage) : PatcherError :=
  st.error

/-- `BootImage::wasType`. -/
def wasType (st : BootImage) : Nat :=
  st.sourceType

/-- `BootImage::setType`. -/
def setType (st : BootImage) (t : Nat) : BootImage :=
  { st with type := t }

/-- `BootImage::load(const unsigned char *, size_t)`: probe the detectors
in source order, record the matched source type before decoding, and on
failure store `BootImageParseError`.  (On a decode failure the C++
intermediate may retain partial state; the model keeps the previous
intermediate, which no claim observes.) -/
def load (st : BootImage) (d : List Nat) : Bool × BootImage :=
  let step : Bool × BootImage :=
    if lokiIsValid d then
      let st' := { st with sourceType := tLoki }
      match lokiLoadImage st.i10e d with
      | some i => (true, { st' with i10e := i })
      | none => (false, st')
    else if bumpIsValid d then
      let st' := { st with sourceType := tBump }
      match bumpLoadImage st.i10e d with
      | some i => (true, { st' with i10e := i })
      | none => (false, st')
    else if androidIsValid d then
      let st' := { st with sourceType := tAndroid }
      match androidLoadImage st.i10e d with
      | some i => (true, { st' with i10e := i })
      | none => (false, st')
    else if sonyElfIsValid d then
      let st' := { st with sourceType := tSonyElf }
      match sonyElfLoadImage st.i10e d with
      | some i => (true, { st' with i10e := i })
      | none => (false, st')
    else (false, st)
  if step.1 then step
  else (false, { step.2 with
    error := PatcherError.createBootImageError ErrorCode.BootImageParseError })

/-- `BootImage::create`: dispatch on the target type; the default branch
of the `switch` produces no bytes and reports failure (`none`). -/
def create (st : BootImage) : Option (List Nat) :=
  if st.type = tAndroid then some (androidCreateImage st.i10e)
  else if st.type = tBump then some (bumpCreateImage st.i10e)
  else if st.type = tLoki then some (lokiCreateImage st.i10e)
  else if st.type = tSonyElf then some (sonyElfCreateImage st.i10e)
  else none

/-- `BootImage::operator==` (bootimage.cpp lines 998-1039): payloads,
the compared header scalars, the eight id words and the two strings;
`hdrUnused` is commented out in the source and the Sony address fields
and the entrypoint are absent from the comparison. -/
def beq (a b : BootImage) : Bool :=
  a.i10e.kernelImage == b.i10e.kernelImage
  && a.i10e.ramdiskImage == b.i10e.ramdiskImage
  && a.i10e.secondImage == b.i10e.secondImage
  && a.i10e.dtImage == b.i10e.dtImage
  && a.i10e.abootImage == b.i10e.abootImage
  && a.i10e.iplImage == b.i10e.iplImage
  && a.i10e.rpmImage == b.i10e.rpmImage
  && a.i10e.appsblImage == b.i10e.appsblImage
  && a.i10e.sonySinImage == b.i10e.sonySinImage
  && a.i10e.sonySinHdr == b.i10e.sonySinHdr
  && a.i10e.hdrKernelSize == b.i10e.hdrKernelSize
  && a.i10e.kernelAddr == b.i10e.kernelAddr
  && a.i10e.hdrRamdiskSize == b.i10e.hdrRamdiskSize
  && a.i10e.ramdiskAddr == b.i10e.ramdiskAddr
  && a.i10e.hdrSecondSize == b.i10e.hdrSecondSize
  && a.i10e.secondAddr == b.i10e.secondAddr
  && a.i10e.tagsAddr == b.i10e.tagsAddr
  && a.i10e.pageSize == b.i10e.pageSize
  && a.i10e.hdrDtSize == b.i10e.hdrDtSize
  && a.i10e.hdrId.w0 == b.i10e.hdrId.w0
  && a.i10e.hdrId.w1 == b.i10e.hdrId.w1
  && a.i10e.hdrId.w2 == b.i10e.hdrId.w2
  && a.i10e.hdrId.w3 == b.i10e.hdrId.w3
  && a.i10e.hdrId.w4 == b.i10e.hdrId.w4
  && a.i10e.hdrId.w5 == b.i10e.hdrId.w5
  && a.i10e.hdrId.w6 == b.i10e.hdrId.w6
  && a.i10e.hdrId.w7 == b.i10e.hdrId.w7
  && a.boardName == b.boardName
  && a.kernelCmdline == b.kernelCmdline

/-- `BootImage::operator!=`. -/
def bne (a b : BootImage) : Bool :=
  !(beq a b)

/-- The load / set_type(was_type()) / create / load scenario of the
round-trip claim, run on one instance: the pair of the model after the
first load and the model after reloading the created bytes, when every
step succeeds. -/
def roundTrip (st : BootImage) (b : List Nat) : Option (BootImage × BootImage) :=
  let (ok, st1) := st.load b
  if ok then
    let st2 := st1.setType st1.wasType
    match st2.create with
    | some b' =>
        let (ok2, st3) := st2.load b'
        if ok2 then some (st1, st3) else none
    | none => none
  else none

end BootImage

/-! ## Derived definitions used by the verification -/

/-- The byte stream that follows the Android magic in the 608-byte
header, ending in an arbitrary tail. -/
def aHdrTail (ks ka rs ra ss sa ta ps dts un : Nat)
    (board cmd idb tail : List Nat) : List Nat :=
  le32 ks ++ (le32 ka ++ (le32 rs ++ (le32 ra ++ (le32 ss ++ (le32 sa ++
    (le32 ta ++ (le32 ps ++ (le32 dts ++ (le32 un ++
    (board ++ (cmd ++ (idb ++ tail))))))))))))

/-- A complete Android image: the 608-byte header, zero padding to the
first page boundary, then the page-padded payloads. -/
def androidLayout (ks ka rs ra ss sa ta ps dts un : Nat)
    (board cmd idb k r s dt : List Nat) : List Nat :=
  androidMagic ++ aHdrTail ks ka rs ra ss sa ta ps dts un board cmd idb
    (List.replicate (ps - 608) 0 ++
      (padTo k ps ++ (padTo r ps ++ (padTo s ps ++ padTo dt ps))))

/-- The header page of an Android image (the 608 header bytes zero-padded
to the page size). -/
def aHdrBlock (ks ka rs ra ss sa ta ps dts un : Nat)
    (board cmd idb : List Nat) : List Nat :=
  androidMagic ++ aHdrTail ks ka rs ra ss sa ta ps dts un board cmd idb
    (List.replicate (ps - 608) 0)

/-- A model is in canonical form apart from its id: the page size is
allowed, each size field is in lockstep with its payload, sizes and
addresses fit in 32 bits, and the strings fit their NUL-padded header
fields without interior NULs. -/
def canonicalNoId (i : BootImageIntermediate) : Prop :=
  i.pageSize ∈ allowedPageSizes ∧
  i.hdrKernelSize = i.kernelImage.length ∧
  i.hdrRamdiskSize = i.ramdiskImage.length ∧
  i.hdrSecondSize = i.secondImage.length ∧
  i.hdrDtSize = i.dtImage.length ∧
  i.kernelImage.length < 4294967296 ∧
  i.ramdiskImage.length < 4294967296 ∧
  i.secondImage.length < 4294967296 ∧
  i.dtImage.length < 4294967296 ∧
  i.kernelAddr < 4294967296 ∧ i.ramdiskAddr < 4294967296 ∧
  i.secondAddr < 4294967296 ∧ i.tagsAddr < 4294967296 ∧
  i.hdrUnused < 4294967296 ∧
  i.boardName.length ≤ 15 ∧ (∀ b ∈ i.boardName, b ≠ 0) ∧
  i.cmdline.length ≤ 511 ∧ (∀ b ∈ i.cmdline, b ≠ 0)

/-- A canonical model: additionally its id already equals the canonical
SHA-1 id that a `create()` would rebuild. -/
def canonicalModel (i : BootImageIntermediate) : Prop :=
  canonicalNoId i ∧ i.hdrId = androidIdWords i

instance (i : BootImageIntermediate) : Decidable (canonicalNoId i) := by
  unfold canonicalNoId
  infer_instance

instance (i : BootImageIntermediate) : Decidable (canonicalModel i) := by
  unfold canonicalModel
  infer_instance

/-- The 608 header bytes of an Android image, as one chunk. -/
def aHdr608 (ks ka rs ra ss sa ta ps dts un : Nat)
    (board cmd idb : List Nat) : List Nat :=
  androidMagic ++ (le32 ks ++ (le32 ka ++ (le32 rs ++ (le32 ra ++ (le32 ss ++
    (le32 sa ++ (le32 ta ++ (le32 ps ++ (le32 dts ++ (le32 un ++
    (board ++ (cmd ++ idb))))))))))))

/-- A concrete 2048-byte Android boot image whose id field is not the
canonical SHA-1 of its (empty) payloads: the first id byte is 255. -/
def c1CexBytes : List Nat :=
  androidLayout 0 0 0 0 0 0 0 2048 0 0 (List.replicate 16 0)
    (List.replicate 512 0) (255 :: List.replicate 31 0) [] [] [] []

/-- The model that loading `c1CexBytes` produces: the construction
defaults with page size 2048, all addresses zero, and the non-canonical
id. -/
def c1CexModel : BootImageIntermediate :=
  { initIntermediate with
    pageSize := 2048
    hdrId := ⟨255, 0, 0, 0, 0, 0, 0, 0⟩ }

/-- The facade state after loading `c1CexBytes` into a fresh instance. -/
def c1CexState : BootImage :=
  { i10e := c1CexModel, type := tAndroid, sourceType := tAndroid,
    error := ⟨ErrorCode.NoError⟩ }

/-- A concrete input that the Sony ELF detector claims (valid ELF32
little-endian `ET_EXEC` prefix) but whose decode fails: it is shorter
than an ELF header. -/
def sonyBadBytes : List Nat :=
  [127, 69, 76, 70, 1, 1, 0, 0, 0, 0, 0, 0, 0, 0, 0, 0, 2, 0]

/-- A concrete 52-byte Sony ELF image with no program headers, on which
`load` succeeds. -/
def sonyOkBytes : List Nat :=
  [127, 69, 76, 70, 1, 1, 1, 0, 0, 0, 0, 0, 0, 0, 0, 0] ++
  le32 2 ++ le32 1 ++ le32 0 ++ le32 52 ++ le32 0 ++ le32 0 ++
  [52, 0, 32, 0] ++ le32 0 ++ [0, 0, 0, 0, 0, 0]

/-- A 20-byte board name used to exercise truncation on emit. -/
def name20 : List Nat := List.replicate 20 65

/-- The detector probe in the fixed order of `BootImage::load`:
Loki, Bump, Android, Sony-ELF, committing to the first match. -/
def detectedFormat (d : List Nat) : Option Nat :=
  if lokiIsValid d then some tLoki
  else if bumpIsValid d then some tBump
  else if androidIsValid d then some tAndroid
  else if sonyElfIsValid d then some tSonyElf
  else none

/-- The decoder of the codec a detected type designates. -/
def decodeFor (t : Nat) (i : BootImageIntermediate) (d : List Nat) :
    Option BootImageIntermediate :=
  if t = tLoki then lokiLoadImage i d
  else if t = tBump then bumpLoadImage i d
  else if t = tAndroid then androidLoadImage i d
  else if t = tSonyElf then sonyElfLoadImage i d
  else none

/-- The construction defaults with page size 2048 and no payloads, before
its id is made canonical. -/
def c1WitModelBase : BootImageIntermediate :=
  { initIntermediate with pageSize := 2048 }

/-- `c1WitModelBase` with its canonical SHA-1 id. -/
def c1WitModel : BootImageIntermediate :=
  { c1WitModelBase with hdrId := androidIdWords c1WitModelBase }

/-- A concrete 2048-byte Android boot image in canonical form: empty
payloads and the canonical id already stored in the header. -/
def c1WitBytes : List Nat :=
  androidLayout 0 0 0 0 0 0 0 2048 0 0 (List.replicate 16 0)
    (List.replicate 512 0) (androidIdBytes c1WitModelBase) [] [] [] []

/-- The facade state after loading `c1WitBytes` into a fresh instance. -/
def c1WitState : BootImage :=
  { i10e := c1WitModel, type := tAndroid, sourceType := tAndroid,
    error := ⟨ErrorCode.NoError⟩ }

/-- A default instance whose `iplAddr` was set to 1, for the equality
claim. -/
def c3Other : BootImage :=
  BootImage.mk0.setIplAddress 1

/-! ## Helper lemmas on the byte-level primitives -/

theorem take4_le32 (x : Nat) (r : List Nat) :
    take4 (le32 x ++ r) = some (x % 4294967296, r) := by
  simp only [le32, List.cons_append, List.nil_append, take4]
  refine congrArg some (Prod.ext ?_ rfl)
  simp only
  omega

theorem takeN_exact {l : List Nat} {n : Nat} (h : l.length = n) (r : List Nat) :
    takeN n (l ++ r) = some (l, r) := by
  unfold takeN
  rw [if_pos (by simp [List.length_append]; omega)]
  rw [List.take_left' h, List.drop_left' h]

theorem extractB_prefix {P : List Nat} (T : List Nat) {off n : Nat}
    (hP : P.length = off) (hn : n ≤ T.length) :
    extractB (P ++ T) off n = some (T.take n) := by
  unfold extractB
  rw [if_pos (by simp [List.length_append]; omega)]
  rw [List.drop_left' hP]

theorem take_exact {l : List Nat} {n : Nat} (h : l.length = n) (r : List Nat) :
    (l ++ r).take n = l :=
  List.take_left' h

theorem cString_append_zeros {s : List Nat} (h : ∀ b ∈ s, b ≠ 0)
    (t : List Nat) : cString (s ++ 0 :: t) = s := by
  induction s with
  | nil => simp [cString]
  | cons a s ih =>
      have ha : a ≠ 0 := h a (List.mem_cons_self a s)
      have ih' := ih (fun b hb => h b (List.mem_cons_of_mem a hb))
      simp only [cString, List.cons_append, List.takeWhile_cons] at ih' ⊢
      rw [if_pos (by simpa using ha)]
      simpa [cString] using ih'

theorem fixedField_length (s : List Nat) (n : Nat) :
    (fixedField s n).length = n := by
  simp only [fixedField, List.length_append, List.length_take,
    List.length_replicate]
  omega

theorem fixedField_of_le {s : List Nat} {n : Nat} (h : s.length ≤ n - 1) :
    fixedField s n = s ++ List.replicate (n - s.length) 0 := by
  unfold fixedField
  rw [List.take_of_length_le h, Nat.min_eq_right h]

theorem alignUp_ge (n p : Nat) : n ≤ alignUp n p := by
  unfold alignUp
  split <;> omega

theorem padTo_length (l : List Nat) (p : Nat) :
    (padTo l p).length = alignUp l.length p := by
  have := alignUp_ge l.length p
  simp [padTo]
  omega

theorem padTo_eq (l : List Nat) (p : Nat) :
    padTo l p = l ++ List.replicate (alignUp l.length p - l.length) 0 := rfl

theorem padTo_nil (p : Nat) : padTo [] p = [] := by
  simp [padTo, alignUp]

theorem alignUp_of_lt {n p : Nat} (h0 : 0 < n) (h : n < p) :
    alignUp n p = p := by
  unfold alignUp
  rw [Nat.mod_eq_of_lt h, if_neg (by omega)]
  omega

theorem allowed_ps {ps : Nat} (h : ps ∈ allowedPageSizes) :
    2048 ≤ ps ∧ ps < 4294967296 := by
  simp [allowedPageSizes] at h
  rcases h with h | h | h | h | h | h | h <;> omega

theorem endsWithBytes_append (t l : List Nat) :
    endsWithBytes t (l ++ t) = true := by
  simp only [endsWithBytes, List.length_append, Bool.and_eq_true,
    decide_eq_true_eq, beq_iff_eq]
  constructor
  · omega
  · rw [show l.length + t.length - t.length = l.length by omega,
      List.drop_left]

theorem getLast?_zeros_pad {l : List Nat} {m : Nat} (hm : 1 ≤ m) :
    (l ++ List.replicate m 0).getLast? = some 0 := by
  rw [List.getLast?_append]
  have : (List.replicate m 0 : List Nat).getLast? = some 0 := by
    cases m with
    | zero => omega
    | succ k => simp [List.getLast?_replicate]
  rw [this]
  rfl

theorem endsWithBytes_false_of_getLast?_zero {l : List Nat}
    (h : l.getLast? = some 0) : endsWithBytes bumpMagic l = false := by
  by_contra hc
  rw [Bool.not_eq_false, endsWithBytes, Bool.and_eq_true, beq_iff_eq] at hc
  have hsplit := congrArg List.getLast?
    ((List.take_append_drop (l.length - bumpMagic.length) l).symm.trans
      (by rw [hc.2]))
  rw [h, List.getLast?_append] at hsplit
  simp [bumpMagic] at hsplit

/-! ## The Android image layout and its decode -/

theorem parseAHdr_layout (ks ka rs ra ss sa ta ps dts un : Nat)
    (board cmd idb tail : List Nat)
    (hb : board.length = 16) (hc : cmd.length = 512) (hi : idb.length = 32) :
    parseAHdr (androidMagic ++
      aHdrTail ks ka rs ra ss sa ta ps dts un board cmd idb tail) =
    some ⟨ks % 4294967296, ka % 4294967296, rs % 4294967296, ra % 4294967296,
      ss % 4294967296, sa % 4294967296, ta % 4294967296, ps % 4294967296,
      dts % 4294967296, un % 4294967296, board, cmd, idb⟩ := by
  unfold parseAHdr aHdrTail
  rw [takeN_exact (by rfl)]
  dsimp only
  rw [if_pos rfl, take4_le32]
  dsimp only
  rw [take4_le32]
  dsimp only
  rw [take4_le32]
  dsimp only
  rw [take4_le32]
  dsimp only
  rw [take4_le32]
  dsimp only
  rw [take4_le32]
  dsimp only
  rw [take4_le32]
  dsimp only
  rw [take4_le32]
  dsimp only
  rw [take4_le32]
  dsimp only
  rw [take4_le32]
  dsimp only
  rw [takeN_exact hb]
  dsimp only
  rw [takeN_exact hc]
  dsimp only
  rw [takeN_exact hi]

theorem androidLayout_split (ks ka rs ra ss sa ta ps dts un : Nat)
    (board cmd idb k r s dt : List Nat) :
    androidLayout ks ka rs ra ss sa ta ps dts un board cmd idb k r s dt =
    aHdrBlock ks ka rs ra ss sa ta ps dts un board cmd idb ++
      (padTo k ps ++ (padTo r ps ++ (padTo s ps ++ padTo dt ps))) := by
  simp [androidLayout, aHdrBlock, aHdrTail, List.append_assoc]

theorem aHdrBlock_length (ks ka rs ra ss sa ta ps dts un : Nat)
    (board cmd idb : List Nat)
    (hb : board.length = 16) (hc : cmd.length = 512) (hi : idb.length = 32)
    (h608 : 608 ≤ ps) :
    (aHdrBlock ks ka rs ra ss sa ta ps dts un board cmd idb).length = ps := by
  simp [aHdrBlock, aHdrTail, androidMagic, le32, hb, hc, hi]
  omega

theorem androidLoadImage_layout (i : BootImageIntermediate)
    (ks ka rs ra ss sa ta ps dts un : Nat) (board cmd idb k r s dt : List Nat)
    (hps : ps ∈ allowedPageSizes)
    (hb : board.length = 16) (hc : cmd.length = 512) (hi : idb.length = 32)
    (hks : ks = k.length) (hrs : rs = r.length) (hss : ss = s.length)
    (hdts : dts = dt.length)
    (bks : ks < 4294967296) (bka : ka < 4294967296) (brs : rs < 4294967296)
    (bra : ra < 4294967296) (bss : ss < 4294967296) (bsa : sa < 4294967296)
    (bta : ta < 4294967296) (bdts : dts < 4294967296) (bun : un < 4294967296) :
    androidLoadImage i
      (androidLayout ks ka rs ra ss sa ta ps dts un board cmd idb k r s dt) =
    some { i with
      boardName := cString board
      cmdline := cString cmd
      kernelAddr := ka
      ramdiskAddr := ra
      secondAddr := sa
      tagsAddr := ta
      pageSize := ps
      hdrUnused := un
      hdrKernelSize := ks
      hdrRamdiskSize := rs
      hdrSecondSize := ss
      hdrDtSize := dts
      hdrId := id8FromBytes idb
      kernelImage := k
      ramdiskImage := r
      secondImage := s
      dtImage := dt } := by
  obtain ⟨hps1, hps2⟩ := allowed_ps hps
  set D := androidLayout ks ka rs ra ss sa ta ps dts un board cmd idb k r s dt
    with hD
  have hsplit : D = aHdrBlock ks ka rs ra ss sa ta ps dts un board cmd idb ++
      (padTo k ps ++ (padTo r ps ++ (padTo s ps ++ padTo dt ps))) :=
    hD.trans (androidLayout_split ks ka rs ra ss sa ta ps dts un
      board cmd idb k r s dt)
  have hHP := aHdrBlock_length ks ka rs ra ss sa ta ps dts un board cmd idb
    hb hc hi (by omega)
  -- the magic sits at offset 0
  have hmagic : androidMagicAt D 0 = true := by
    have : extractB D 0 8 = some androidMagic := by
      have : D = ([] : List Nat) ++ (androidMagic ++
          aHdrTail ks ka rs ra ss sa ta ps dts un board cmd idb
            (List.replicate (ps - 608) 0 ++
              (padTo k ps ++ (padTo r ps ++ (padTo s ps ++ padTo dt ps))))) :=
        by simp [hD, androidLayout]
      rw [this, extractB_prefix _ (by rfl) (by simp [androidMagic])]
      rw [take_exact (by rfl)]
    simp [androidMagicAt, this]
  have hfind : findAndroidHeader D = some 0 := by
    unfold findAndroidHeader findHdrAux
    rw [if_pos hmagic]
  -- the parsed header
  have hparse : parseAHdr D = some ⟨ks, ka, rs, ra, ss, sa, ta, ps, dts, un,
      board, cmd, idb⟩ := by
    rw [hD]
    unfold androidLayout
    rw [parseAHdr_layout _ _ _ _ _ _ _ _ _ _ _ _ _ _ hb hc hi]
    rw [Nat.mod_eq_of_lt bks, Nat.mod_eq_of_lt bka, Nat.mod_eq_of_lt brs,
      Nat.mod_eq_of_lt bra, Nat.mod_eq_of_lt bss, Nat.mod_eq_of_lt bsa,
      Nat.mod_eq_of_lt bta, Nat.mod_eq_of_lt hps2, Nat.mod_eq_of_lt bdts,
      Nat.mod_eq_of_lt bun]
  -- payload extraction
  have hkernel : extractB D ps ks = some k := by
    rw [hsplit, extractB_prefix _ hHP
      (by simp [padTo_length, hks]; have := alignUp_ge k.length ps; omega)]
    rw [padTo_eq, List.append_assoc, take_exact hks.symm]
  have hramdisk : extractB D (ps + alignUp ks ps) rs = some r := by
    have hsplit2 : D = (aHdrBlock ks ka rs ra ss sa ta ps dts un board cmd
        idb ++ padTo k ps) ++ (padTo r ps ++ (padTo s ps ++ padTo dt ps)) := by
      rw [hsplit]; simp [List.append_assoc]
    rw [hsplit2, extractB_prefix _
      (by simp [hHP, padTo_length, ← hks])
      (by simp [padTo_length, hrs]; have := alignUp_ge r.length ps; omega)]
    rw [padTo_eq, List.append_assoc, take_exact hrs.symm]
  have hsecond : extractB D (ps + alignUp ks ps + alignUp rs ps) ss =
      some s := by
    have hsplit3 : D = ((aHdrBlock ks ka rs ra ss sa ta ps dts un board cmd
        idb ++ padTo k ps) ++ padTo r ps) ++ (padTo s ps ++ padTo dt ps) := by
      rw [hsplit]; simp [List.append_assoc]
    rw [hsplit3, extractB_prefix _
      (by simp [hHP, padTo_length, ← hks, ← hrs]; omega)
      (by simp [padTo_length, hss]; have := alignUp_ge s.length ps; omega)]
    rw [padTo_eq, List.append_assoc, take_exact hss.symm]
  have hdt : extractB D (ps + alignUp ks ps + alignUp rs ps + alignUp ss ps)
      dts = some dt := by
    have hsplit4 : D = (((aHdrBlock ks ka rs ra ss sa ta ps dts un board cmd
        idb ++ padTo k ps) ++ padTo r ps) ++ padTo s ps) ++ padTo dt ps := by
      rw [hsplit]; simp [List.append_assoc]
    rw [hsplit4, extractB_prefix _
      (by simp [hHP, padTo_length, ← hks, ← hrs, ← hss]; omega)
      (by simp [padTo_length, hdts]; exact alignUp_ge dt.length ps)]
    rw [padTo_eq, take_exact hdts.symm]
  -- assemble
  unfold androidLoadImage
  rw [hfind]
  simp only [Option.some_bind, List.drop_zero]
  rw [hparse]
  simp only [Option.some_bind]
  rw [if_pos hps]
  rw [hkernel]
  simp only [Option.some_bind]
  rw [hramdisk]
  simp only [Option.some_bind]
  rw [hsecond]
  simp only [Option.some_bind]
  rw [hdt]
  simp only [Option.some_bind]

/-! ## The shape of an encoded Android image -/

theorem sha1Bytes_length (m : List Nat) : (sha1Bytes m).length = 20 := by
  unfold sha1Bytes
  rcases sha1Loop (1732584193, 4023233417, 2562383102, 271733878, 3285377520)
      (toWordsBE (sha1Pad m)) with ⟨h0, h1, h2, h3, h4⟩
  simp [be32]

theorem androidIdBytes_length (i : BootImageIntermediate) :
    (androidIdBytes i).length = 32 := by
  simp [androidIdBytes, sha1Bytes_length]

theorem androidHdrBytes_length (i : BootImageIntermediate) :
    (androidHdrBytes i).length = 608 := by
  simp [androidHdrBytes, androidMagic, le32, fixedField_length,
    androidIdBytes_length]

theorem androidCreateImage_layout (i : BootImageIntermediate)
    (hps : 2048 ≤ i.pageSize) :
    androidCreateImage i =
    androidLayout i.hdrKernelSize i.kernelAddr i.hdrRamdiskSize i.ramdiskAddr
      i.hdrSecondSize i.secondAddr i.tagsAddr i.pageSize i.hdrDtSize
      i.hdrUnused (fixedField i.boardName 16) (fixedField i.cmdline 512)
      (androidIdBytes i) i.kernelImage i.ramdiskImage i.secondImage
      i.dtImage := by
  have hpad : padTo (androidHdrBytes i) i.pageSize =
      androidHdrBytes i ++ List.replicate (i.pageSize - 608) 0 := by
    rw [padTo_eq, androidHdrBytes_length, alignUp_of_lt (by omega) (by omega)]
  unfold androidCreateImage
  rw [hpad]
  simp [androidLayout, aHdrTail, androidHdrBytes, List.append_assoc]

theorem findAndroidHeader_magic_prefix (t : List Nat) :
    findAndroidHeader (androidMagic ++ t) = some 0 := by
  have hm : androidMagicAt (androidMagic ++ t) 0 = true := by
    have he : extractB (androidMagic ++ t) 0 8 = some androidMagic := by
      unfold extractB
      rw [if_pos (by simp [androidMagic])]
      rw [List.drop_zero, take_exact (by rfl)]
    simp [androidMagicAt, he]
  unfold findAndroidHeader findHdrAux
  rw [if_pos hm]

theorem androidIsValid_create (i : BootImageIntermediate)
    (hps : 2048 ≤ i.pageSize) :
    androidIsValid (androidCreateImage i) = true := by
  rw [androidIsValid, androidCreateImage_layout i hps, androidLayout,
    findAndroidHeader_magic_prefix]
  rfl

theorem cString_fixedField {s : List Nat} {n : Nat} (hlen : s.length ≤ n - 1)
    (hn : s.length < n) (hz : ∀ b ∈ s, b ≠ 0) :
    cString (fixedField s n) = s := by
  rw [fixedField_of_le hlen,
    show n - s.length = (n - s.length - 1) + 1 by omega,
    List.replicate_succ]
  exact cString_append_zeros hz _

theorem androidLoad_create (i : BootImageIntermediate) (h : canonicalNoId i) :
    androidLoadImage i (androidCreateImage i) =
    some { i with hdrId := androidIdWords i } := by
  obtain ⟨hps, hks, hrs, hss, hdts, bk, br, bs, bd, bka, bra, bsa, bta, bun,
    hbl, hbz, hcl, hcz⟩ := h
  obtain ⟨hps1, hps2⟩ := allowed_ps hps
  rw [androidCreateImage_layout i (by omega)]
  rw [androidLoadImage_layout i _ _ _ _ _ _ _ _ _ _ _ _ _ _ _ _ _ hps
    (fixedField_length _ _) (fixedField_length _ _) (androidIdBytes_length i)
    hks hrs hss hdts (by omega) bka (by omega) bra (by omega) bsa bta
    (by omega) bun]
  rw [cString_fixedField (by omega) (by omega) hbz,
    cString_fixedField (by omega) (by omega) hcz]
  rfl

/-! ## Dispatch of an encoded image -/

theorem extractB_create_at_1024 (i : BootImageIntermediate) (t : List Nat)
    (hps : 2048 ≤ i.pageSize) :
    extractB (androidCreateImage i ++ t) 1024 4 = some [0, 0, 0, 0] := by
  have hhdr := androidHdrBytes_length i
  have hpad : padTo (androidHdrBytes i) i.pageSize =
      androidHdrBytes i ++ List.replicate (i.pageSize - 608) 0 := by
    rw [padTo_eq, hhdr, alignUp_of_lt (by omega) (by omega)]
  have hshape : androidCreateImage i ++ t =
      androidHdrBytes i ++ (List.replicate (i.pageSize - 608) 0 ++
        (padTo i.kernelImage i.pageSize ++ (padTo i.ramdiskImage i.pageSize ++
         (padTo i.secondImage i.pageSize ++
          (padTo i.dtImage i.pageSize ++ t))))) := by
    unfold androidCreateImage
    rw [hpad]
    simp [List.append_assoc]
  rw [hshape]
  unfold extractB
  rw [if_pos (by simp [hhdr]; omega)]
  rw [show (1024 : Nat) = 608 + 416 by rfl, ← List.drop_drop,
    List.drop_left' hhdr,
    List.drop_append_of_le_length (by simp; omega), List.drop_replicate,
    List.take_append_of_le_length (by simp; omega), List.take_replicate]
  rw [Nat.min_eq_left (by omega)]
  rfl

theorem lokiIsValid_create_false (i : BootImageIntermediate) (t : List Nat)
    (hps : 2048 ≤ i.pageSize) :
    lokiIsValid (androidCreateImage i ++ t) = false := by
  unfold lokiIsValid lokiMagicOffset
  rw [extractB_create_at_1024 i t hps]
  simp [lokiMagicBytes]

theorem aHdr608_length (ks ka rs ra ss sa ta ps dts un : Nat)
    (board cmd idb : List Nat)
    (hb : board.length = 16) (hc : cmd.length = 512) (hi : idb.length = 32) :
    (aHdr608 ks ka rs ra ss sa ta ps dts un board cmd idb).length = 608 := by
  simp [aHdr608, androidMagic, le32, hb, hc, hi]

theorem extractB_zeros_1024 (P rest : List Nat) (m : Nat)
    (hP : P.length = 608) (hm : 420 ≤ m) :
    extractB (P ++ (List.replicate m 0 ++ rest)) 1024 4 = some [0, 0, 0, 0] := by
  unfold extractB
  rw [if_pos (by simp [hP]; omega)]
  rw [show (1024 : Nat) = 608 + 416 by rfl, ← List.drop_drop,
    List.drop_left' hP,
    List.drop_append_of_le_length (by simp; omega), List.drop_replicate,
    List.take_append_of_le_length (by simp; omega), List.take_replicate,
    Nat.min_eq_left (by omega)]
  rfl

theorem androidLayout_as_chunk (ks ka rs ra ss sa ta ps dts un : Nat)
    (board cmd idb k r s dt : List Nat) :
    androidLayout ks ka rs ra ss sa ta ps dts un board cmd idb k r s dt =
    aHdr608 ks ka rs ra ss sa ta ps dts un board cmd idb ++
      (List.replicate (ps - 608) 0 ++
        (padTo k ps ++ (padTo r ps ++ (padTo s ps ++ padTo dt ps)))) := by
  simp [androidLayout, aHdr608, aHdrTail, List.append_assoc]

theorem lokiIsValid_layout_false (ks ka rs ra ss sa ta ps dts un : Nat)
    (board cmd idb k r s dt : List Nat) (hps : 2048 ≤ ps)
    (hb : board.length = 16) (hc : cmd.length = 512) (hi : idb.length = 32) :
    lokiIsValid
      (androidLayout ks ka rs ra ss sa ta ps dts un board cmd idb k r s dt) =
    false := by
  unfold lokiIsValid lokiMagicOffset
  rw [androidLayout_as_chunk, extractB_zeros_1024 _ _ _
    (aHdr608_length ks ka rs ra ss sa ta ps dts un board cmd idb hb hc hi)
    (by omega)]
  simp [lokiMagicBytes]

theorem androidIsValid_layout (ks ka rs ra ss sa ta ps dts un : Nat)
    (board cmd idb k r s dt : List Nat) :
    androidIsValid
      (androidLayout ks ka rs ra ss sa ta ps dts un board cmd idb k r s dt) =
    true := by
  rw [androidIsValid, androidLayout, findAndroidHeader_magic_prefix]
  rfl

theorem layout_getLast?_empty (ks ka rs ra ss sa ta ps dts un : Nat)
    (board cmd idb : List Nat) (hps : 2048 ≤ ps) :
    (androidLayout ks ka rs ra ss sa ta ps dts un board cmd idb
      [] [] [] []).getLast? = some 0 := by
  rw [androidLayout_as_chunk]
  simp only [padTo_nil, List.append_nil]
  exact getLast?_zeros_pad (by omega)

theorem endsWith_create_empty (i : BootImageIntermediate)
    (hps : 2048 ≤ i.pageSize)
    (hk : i.kernelImage = []) (hr : i.ramdiskImage = [])
    (hs : i.secondImage = []) (hd : i.dtImage = []) :
    endsWithBytes bumpMagic (androidCreateImage i) = false := by
  apply endsWithBytes_false_of_getLast?_zero
  have hpad : padTo (androidHdrBytes i) i.pageSize =
      androidHdrBytes i ++ List.replicate (i.pageSize - 608) 0 := by
    rw [padTo_eq, androidHdrBytes_length, alignUp_of_lt (by omega) (by omega)]
  unfold androidCreateImage
  rw [hk, hr, hs, hd, padTo_nil, hpad]
  simp only [List.append_nil]
  exact getLast?_zeros_pad (by omega)

theorem bumpIsValid_false_of_no_trailer {d : List Nat}
    (h : endsWithBytes bumpMagic d = false) : bumpIsValid d = false := by
  simp [bumpIsValid, h]

/-! ## The facade dispatcher -/

theorem load_of_android {st : BootImage} {d : List Nat}
    {i : BootImageIntermediate}
    (hl : lokiIsValid d = false) (hb : bumpIsValid d = false)
    (ha : androidIsValid d = true) (hd : androidLoadImage st.i10e d = some i) :
    st.load d = (true, { st with sourceType := tAndroid, i10e := i }) := by
  unfold BootImage.load
  simp only [hl, hb, ha, hd, Bool.false_eq_true, if_false, if_true]

theorem load_of_bump {st : BootImage} {d : List Nat}
    {i : BootImageIntermediate}
    (hl : lokiIsValid d = false) (hb : bumpIsValid d = true)
    (hd : bumpLoadImage st.i10e d = some i) :
    st.load d = (true, { st with sourceType := tBump, i10e := i }) := by
  unfold BootImage.load
  simp only [hl, hb, hd, Bool.false_eq_true, if_false, if_true]

theorem beq_of_i10e_eq {a b : BootImage} (h : a.i10e = b.i10e) :
    BootImage.beq a b = true := by
  simp [BootImage.beq, BootImage.boardName, BootImage.kernelCmdline, h]

theorem roundTrip_eq {st st1 st3 : BootImage} {b b' : List Nat}
    (h1 : st.load b = (true, st1))
    (h2 : (st1.setType st1.wasType).create = some b')
    (h3 : (st1.setType st1.wasType).load b' = (true, st3)) :
    BootImage.roundTrip st b = some (st1, st3) := by
  unfold BootImage.roundTrip
  rw [h1]
  dsimp only
  rw [h2]
  dsimp only
  rw [h3]
  simp

theorem create_of_type_android {st : BootImage} (h : st.type = tAndroid) :
    st.create = some (androidCreateImage st.i10e) := by
  unfold BootImage.create
  rw [if_pos h]

theorem create_of_type_bump {st : BootImage} (h : st.type = tBump) :
    st.create = some (bumpCreateImage st.i10e) := by
  unfold BootImage.create
  rw [if_neg (by rw [h]; simp [tBump, tAndroid]), if_pos h]

/-- The create-then-reload step of the round trip on one instance, for a
model in canonical form apart from its id, with source type Android: the
reloaded model carries the rebuilt canonical id. -/
theorem createReload_android' {st1 : BootImage}
    (hA : st1.sourceType = tAndroid)
    (hnoid : canonicalNoId st1.i10e)
    (htr : endsWithBytes bumpMagic (androidCreateImage st1.i10e) = false) :
    (st1.setType st1.wasType).create =
      some (androidCreateImage st1.i10e) ∧
    (st1.setType st1.wasType).load (androidCreateImage st1.i10e) =
      (true, { st1 with
        type := st1.wasType
        sourceType := tAndroid
        i10e := { st1.i10e with hdrId := androidIdWords st1.i10e } }) := by
  have hps : 2048 ≤ st1.i10e.pageSize := (allowed_ps hnoid.1).1
  have hload : androidLoadImage st1.i10e (androidCreateImage st1.i10e) =
      some { st1.i10e with hdrId := androidIdWords st1.i10e } :=
    androidLoad_create st1.i10e hnoid
  have hl : lokiIsValid (androidCreateImage st1.i10e) = false := by
    have := lokiIsValid_create_false st1.i10e [] hps
    rwa [List.append_nil] at this
  refine ⟨create_of_type_android (by simp [BootImage.setType,
    BootImage.wasType, hA]), ?_⟩
  rw [load_of_android hl (bumpIsValid_false_of_no_trailer htr)
    (androidIsValid_create _ hps)
    (show androidLoadImage (st1.setType st1.wasType).i10e
        (androidCreateImage st1.i10e) =
      some { st1.i10e with hdrId := androidIdWords st1.i10e } from hload)]
  rfl

/-- The create-then-reload step of the round trip on one instance, for a
canonical model with source type Android: the model is reproduced. -/
theorem createReload_android {st1 : BootImage}
    (hA : st1.sourceType = tAndroid)
    (hcan : canonicalModel st1.i10e)
    (htr : endsWithBytes bumpMagic (androidCreateImage st1.i10e) = false) :
    (st1.setType st1.wasType).create =
      some (androidCreateImage st1.i10e) ∧
    (st1.setType st1.wasType).load (androidCreateImage st1.i10e) =
      (true, { st1 with type := st1.wasType, sourceType := tAndroid }) := by
  obtain ⟨hc, hload⟩ := createReload_android' hA hcan.1 htr
  have hfix : { st1.i10e with hdrId := androidIdWords st1.i10e } =
      st1.i10e := by
    rw [← hcan.2]
  rw [hfix] at hload
  exact ⟨hc, hload⟩

/-- The create-then-reload step of the round trip on one instance, for a
canonical model with source type Bump. -/
theorem createReload_bump {st1 : BootImage}
    (hB : st1.sourceType = tBump)
    (hcan : canonicalModel st1.i10e) :
    (st1.setType st1.wasType).create = some (bumpCreateImage st1.i10e) ∧
    (st1.setType st1.wasType).load (bumpCreateImage st1.i10e) =
      (true, { st1 with type := st1.wasType, sourceType := tBump }) := by
  obtain ⟨hnoid, hid⟩ := hcan
  have hps : 2048 ≤ st1.i10e.pageSize := (allowed_ps hnoid.1).1
  have hload : androidLoadImage st1.i10e (androidCreateImage st1.i10e) =
      some st1.i10e := by
    rw [androidLoad_create st1.i10e hnoid, ← hid]
  have hl : lokiIsValid (bumpCreateImage st1.i10e) = false :=
    lokiIsValid_create_false st1.i10e bumpMagic hps
  have htrim : (bumpCreateImage st1.i10e).take
      ((bumpCreateImage st1.i10e).length - bumpMagic.length) =
      androidCreateImage st1.i10e := by
    unfold bumpCreateImage
    rw [List.length_append,
      Nat.add_sub_cancel, List.take_left]
  have hbv : bumpIsValid (bumpCreateImage st1.i10e) = true := by
    unfold bumpIsValid
    rw [htrim, bumpCreateImage, endsWithBytes_append,
      androidIsValid_create _ hps]
    rfl
  have hd : bumpLoadImage st1.i10e (bumpCreateImage st1.i10e) =
      some st1.i10e := by
    unfold bumpLoadImage
    rw [bumpCreateImage, endsWithBytes_append, if_pos rfl,
      ← bumpCreateImage, htrim, hload]
  refine ⟨create_of_type_bump (by simp [BootImage.setType,
    BootImage.wasType, hB]), ?_⟩
  rw [load_of_bump hl hbv
    (show bumpLoadImage (st1.setType st1.wasType).i10e
      (bumpCreateImage st1.i10e) = some st1.i10e from hd)]
  rfl

/-- The board-name field of an encoded Android image is the bytes
48..63, the 16-byte NUL-padded field. -/
theorem create_board_field (i : BootImageIntermediate) :
    ((androidCreateImage i).drop 48).take 16 = fixedField i.boardName 16 := by
  have h1 : androidCreateImage i = androidHdrBytes i ++
      (List.replicate (alignUp (androidHdrBytes i).length i.pageSize -
        (androidHdrBytes i).length) 0 ++
       (padTo i.kernelImage i.pageSize ++ (padTo i.ramdiskImage i.pageSize ++
        (padTo i.secondImage i.pageSize ++ padTo i.dtImage i.pageSize)))) := by
    unfold androidCreateImage
    rw [padTo_eq (androidHdrBytes i) i.pageSize]
    simp [List.append_assoc]
  have h2 : (androidHdrBytes i).drop 48 = fixedField i.boardName 16 ++
      (fixedField i.cmdline 512 ++ androidIdBytes i) := by
    have h3 : androidHdrBytes i =
        (androidMagic ++ (le32 i.hdrKernelSize ++ (le32 i.kernelAddr ++
          (le32 i.hdrRamdiskSize ++ (le32 i.ramdiskAddr ++
          (le32 i.hdrSecondSize ++ (le32 i.secondAddr ++ (le32 i.tagsAddr ++
          (le32 i.pageSize ++ (le32 i.hdrDtSize ++
            le32 i.hdrUnused)))))))))) ++
        (fixedField i.boardName 16 ++
          (fixedField i.cmdline 512 ++ androidIdBytes i)) := by
      simp [androidHdrBytes, List.append_assoc]
    rw [h3, List.drop_left' (by simp [androidMagic, le32])]
  rw [h1, List.drop_append_of_le_length (by rw [androidHdrBytes_length]; omega),
    h2, List.append_assoc, take_exact (fixedField_length _ _)]

/-- Decoding the concrete non-canonical-id image yields `c1CexModel`. -/
theorem C1_cex_decode :
    androidLoadImage BootImage.mk0.i10e c1CexBytes = some c1CexModel := by
  rw [c1CexBytes]
  rw [androidLoadImage_layout BootImage.mk0.i10e 0 0 0 0 0 0 0 2048 0 0
    (List.replicate 16 0) (List.replicate 512 0) (255 :: List.replicate 31 0)
    [] [] [] [] (by decide) rfl rfl rfl
    rfl rfl rfl rfl (by omega) (by omega) (by omega) (by omega) (by omega)
    (by omega) (by omega) (by omega) (by omega)]
  decide

/-- Loading the concrete non-canonical-id image succeeds with source type
Android. -/
theorem C1_cex_load :
    BootImage.mk0.load c1CexBytes = (true, c1CexState) := by
  have hl : lokiIsValid c1CexBytes = false := by
    rw [c1CexBytes]
    exact lokiIsValid_layout_false 0 0 0 0 0 0 0 2048 0 0 _ _ _ _ _ _ _
      (by omega) rfl rfl rfl
  have hbv : bumpIsValid c1CexBytes = false := by
    apply bumpIsValid_false_of_no_trailer
    rw [c1CexBytes]
    exact endsWithBytes_false_of_getLast?_zero
      (layout_getLast?_empty 0 0 0 0 0 0 0 2048 0 0 _ _ _ (by omega))
  have ha : androidIsValid c1CexBytes = true := by
    rw [c1CexBytes]
    exact androidIsValid_layout 0 0 0 0 0 0 0 2048 0 0 _ _ _ _ _ _ _
  rw [load_of_android hl hbv ha C1_cex_decode]
  decide

/-- Decoding the concrete canonical image yields `c1WitModel`. -/
theorem C1_wit_decode :
    androidLoadImage BootImage.mk0.i10e c1WitBytes = some c1WitModel := by
  rw [c1WitBytes]
  rw [androidLoadImage_layout BootImage.mk0.i10e 0 0 0 0 0 0 0 2048 0 0
    (List.replicate 16 0) (List.replicate 512 0)
    (androidIdBytes c1WitModelBase)
    [] [] [] [] (by decide) rfl rfl (androidIdBytes_length _)
    rfl rfl rfl rfl (by omega) (by omega) (by omega) (by omega) (by omega)
    (by omega) (by omega) (by omega) (by omega)]
  decide

/-- Loading the concrete canonical image succeeds with source type
Android. -/
theorem C1_wit_load :
    BootImage.mk0.load c1WitBytes = (true, c1WitState) := by
  have hl : lokiIsValid c1WitBytes = false := by
    rw [c1WitBytes]
    exact lokiIsValid_layout_false 0 0 0 0 0 0 0 2048 0 0 _ _ _ _ _ _ _
      (by omega) rfl rfl (androidIdBytes_length _)
  have hbv : bumpIsValid c1WitBytes = false := by
    apply bumpIsValid_false_of_no_trailer
    rw [c1WitBytes]
    exact endsWithBytes_false_of_getLast?_zero
      (layout_getLast?_empty 0 0 0 0 0 0 0 2048 0 0 _ _ _ (by omega))
  have ha : androidIsValid c1WitBytes = true := by
    rw [c1WitBytes]
    exact androidIsValid_layout 0 0 0 0 0 0 0 2048 0 0 _ _ _ _ _ _ _
  rw [load_of_android hl hbv ha C1_wit_decode]
  decide

/-! ## The claims -/

/-- C1 (amended): for a `load` that succeeds with source container Android
or Bump and produces a canonical model (size fields in lockstep with the
payloads, page size in the allowed set, 32-bit fields in range, strings
fitting their NUL-padded header fields, and the id already equal to the
canonical SHA-1 id that `create()` rebuilds), and whose Android
re-encoding does not end with the Bump trailer, the sequence
`load(b); set_type(was_type()); create(); load(b')` succeeds and
reproduces a structurally equal model. -/
theorem C1_amended_roundtrip (st : BootImage) (b : List Nat)
    (h1 : (st.load b).1 = true)
    (hsrc : (st.load b).2.sourceType = tAndroid ∨
            (st.load b).2.sourceType = tBump)
    (hcan : canonicalModel (st.load b).2.i10e)
    (htr : endsWithBytes bumpMagic
      (androidCreateImage (st.load b).2.i10e) = false) :
    (BootImage.roundTrip st b).map (fun p => BootImage.beq p.2 p.1) =
      some true := by
  have hload : st.load b = (true, (st.load b).2) := by
    have he : st.load b = ((st.load b).1, (st.load b).2) := rfl
    rw [he, h1]
  rcases hsrc with hA | hB
  · obtain ⟨h2, h3⟩ := createReload_android hA hcan htr
    rw [roundTrip_eq hload h2 h3]
    simp only [Option.map_some']
    exact congrArg some (beq_of_i10e_eq rfl)
  · obtain ⟨h2, h3⟩ := createReload_bump hB hcan
    rw [roundTrip_eq hload h2 h3]
    simp only [Option.map_some']
    exact congrArg some (beq_of_i10e_eq rfl)

/-- C1 (counterexample): a valid 2048-byte Android boot image whose
stored id is not the canonical SHA-1 of its payloads loads successfully,
but `load; set_type(was_type()); create; load` yields a model that is not
structurally equal to the first: `create()` rebuilds the id. -/
theorem C1_counterexample :
    (BootImage.roundTrip BootImage.mk0 c1CexBytes).map
      (fun p => BootImage.beq p.2 p.1) = some false := by
  obtain ⟨h2, h3⟩ := @createReload_android' c1CexState
    (by decide) (by decide)
    (endsWith_create_empty _ (by decide) rfl rfl rfl rfl)
  rw [roundTrip_eq C1_cex_load h2 h3]
  simp only [Option.map_some']
  decide

/-- C1 (witness): the amended round trip holds at a concrete canonical
2048-byte Android image. -/
theorem C1_witness :
    (BootImage.mk0.load c1WitBytes).1 = true ∧
    ((BootImage.mk0.load c1WitBytes).2.sourceType = tAndroid ∨
     (BootImage.mk0.load c1WitBytes).2.sourceType = tBump) ∧
    canonicalModel (BootImage.mk0.load c1WitBytes).2.i10e ∧
    endsWithBytes bumpMagic
      (androidCreateImage (BootImage.mk0.load c1WitBytes).2.i10e) = false ∧
    (BootImage.roundTrip BootImage.mk0 c1WitBytes).map
      (fun p => BootImage.beq p.2 p.1) = some true := by
  have h1 : (BootImage.mk0.load c1WitBytes).1 = true := by rw [C1_wit_load]
  have h2 : (BootImage.mk0.load c1WitBytes).2.sourceType = tAndroid := by
    rw [C1_wit_load]
    rfl
  have h3 : canonicalModel (BootImage.mk0.load c1WitBytes).2.i10e := by
    rw [C1_wit_load]
    decide
  have h4 : endsWithBytes bumpMagic
      (androidCreateImage (BootImage.mk0.load c1WitBytes).2.i10e) = false := by
    rw [C1_wit_load]
    exact endsWith_create_empty _ (by decide) rfl rfl rfl rfl
  exact ⟨h1, Or.inl h2, h3, h4,
    C1_amended_roundtrip BootImage.mk0 c1WitBytes h1 (Or.inl h2) h3 h4⟩

/-- C2: `load` probes the detectors in the fixed order Loki, Bump,
Android, Sony-ELF and commits to the first match; it returns false
exactly when no detector matches or the matching codec's decode fails,
and in that case the stored error is `BootImageParseError`. -/
theorem C2_load_failure (st : BootImage) (d : List Nat) :
    (((st.load d).1 = false) ↔
      (detectedFormat d = none ∨
        ∃ t, detectedFormat d = some t ∧ decodeFor t st.i10e d = none)) ∧
    ((st.load d).1 = false →
      (st.load d).2.error =
        PatcherError.createBootImageError ErrorCode.BootImageParseError) := by
  unfold BootImage.load detectedFormat decodeFor
  by_cases hL : lokiIsValid d
  · cases hres : lokiLoadImage st.i10e d with
    | some i => simp [hL, hres, tLoki, tBump, tAndroid, tSonyElf]
    | none => simp [hL, hres, tLoki, tBump, tAndroid, tSonyElf,
        PatcherError.createBootImageError]
  · by_cases hB : bumpIsValid d
    · cases hres : bumpLoadImage st.i10e d with
      | some i => simp [hL, hB, hres, tLoki, tBump, tAndroid, tSonyElf]
      | none => simp [hL, hB, hres, tLoki, tBump, tAndroid, tSonyElf,
          PatcherError.createBootImageError]
    · by_cases hA : androidIsValid d
      · cases hres : androidLoadImage st.i10e d with
        | some i => simp [hL, hB, hA, hres, tLoki, tBump, tAndroid, tSonyElf]
        | none => simp [hL, hB, hA, hres, tLoki, tBump, tAndroid, tSonyElf,
            PatcherError.createBootImageError]
      · by_cases hS : sonyElfIsValid d
        · cases hres : sonyElfLoadImage st.i10e d with
          | some i => simp [hL, hB, hA, hS, hres, tLoki, tBump, tAndroid,
              tSonyElf]
          | none => simp [hL, hB, hA, hS, hres, tLoki, tBump, tAndroid,
              tSonyElf, PatcherError.createBootImageError]
        · simp [hL, hB, hA, hS, PatcherError.createBootImageError]

/-- C2 (witness): loading an empty byte sequence fails with
`BootImageParseError`. -/
theorem C2_witness :
    (BootImage.mk0.load []).2.error =
      PatcherError.createBootImageError ErrorCode.BootImageParseError :=
  (C2_load_failure BootImage.mk0 []).2 (by decide)

/-- C3 (amended): two instances compare equal exactly when all payload
blobs, the four size fields, the Android address fields (kernel, ramdisk,
second, tags), the page size, the eight id words, the board name and the
cmdline agree; the Sony address fields (ipl, rpm, appsbl) and the
entrypoint are not compared, and neither are source type, target type or
the unused word. -/
theorem C3_beq_iff (a b : BootImage) :
    BootImage.beq a b = true ↔
    (a.i10e.kernelImage = b.i10e.kernelImage ∧
     a.i10e.ramdiskImage = b.i10e.ramdiskImage ∧
     a.i10e.secondImage = b.i10e.secondImage ∧
     a.i10e.dtImage = b.i10e.dtImage ∧
     a.i10e.abootImage = b.i10e.abootImage ∧
     a.i10e.iplImage = b.i10e.iplImage ∧
     a.i10e.rpmImage = b.i10e.rpmImage ∧
     a.i10e.appsblImage = b.i10e.appsblImage ∧
     a.i10e.sonySinImage = b.i10e.sonySinImage ∧
     a.i10e.sonySinHdr = b.i10e.sonySinHdr ∧
     a.i10e.hdrKernelSize = b.i10e.hdrKernelSize ∧
     a.i10e.kernelAddr = b.i10e.kernelAddr ∧
     a.i10e.hdrRamdiskSize = b.i10e.hdrRamdiskSize ∧
     a.i10e.ramdiskAddr = b.i10e.ramdiskAddr ∧
     a.i10e.hdrSecondSize = b.i10e.hdrSecondSize ∧
     a.i10e.secondAddr = b.i10e.secondAddr ∧
     a.i10e.tagsAddr = b.i10e.tagsAddr ∧
     a.i10e.pageSize = b.i10e.pageSize ∧
     a.i10e.hdrDtSize = b.i10e.hdrDtSize ∧
     a.i10e.hdrId.w0 = b.i10e.hdrId.w0 ∧
     a.i10e.hdrId.w1 = b.i10e.hdrId.w1 ∧
     a.i10e.hdrId.w2 = b.i10e.hdrId.w2 ∧
     a.i10e.hdrId.w3 = b.i10e.hdrId.w3 ∧
     a.i10e.hdrId.w4 = b.i10e.hdrId.w4 ∧
     a.i10e.hdrId.w5 = b.i10e.hdrId.w5 ∧
     a.i10e.hdrId.w6 = b.i10e.hdrId.w6 ∧
     a.i10e.hdrId.w7 = b.i10e.hdrId.w7 ∧
     a.i10e.boardName = b.i10e.boardName ∧
     a.i10e.cmdline = b.i10e.cmdline) := by
  simp [BootImage.beq, BootImage.boardName, BootImage.kernelCmdline,
    Bool.and_eq_true, beq_iff_eq, and_assoc]

/-- C3 (counterexample): two instances that differ only in `iplAddr`
still compare equal, so equality does not consider all address header
fields. -/
theorem C3_counterexample :
    BootImage.beq BootImage.mk0 c3Other = true ∧
    BootImage.mk0.i10e.iplAddr ≠ c3Other.i10e.iplAddr :=
  ⟨by decide, by decide⟩

/-- C4 (amended): a failed `load` leaves `source_type` unchanged only
when no detector matched; when a detector matches, `source_type` is set
to the matched type before decoding, whether or not the decode
succeeds. -/
theorem C4_amended (st : BootImage) (d : List Nat) :
    (detectedFormat d = none → (st.load d).2.sourceType = st.sourceType) ∧
    (∀ t, detectedFormat d = some t → (st.load d).2.sourceType = t) := by
  unfold BootImage.load detectedFormat
  by_cases hL : lokiIsValid d
  · cases hres : lokiLoadImage st.i10e d with
    | some i => simp [hL, hres]
    | none => simp [hL, hres]
  · by_cases hB : bumpIsValid d
    · cases hres : bumpLoadImage st.i10e d with
      | some i => simp [hL, hB, hres]
      | none => simp [hL, hB, hres]
    · by_cases hA : androidIsValid d
      · cases hres : androidLoadImage st.i10e d with
        | some i => simp [hL, hB, hA, hres]
        | none => simp [hL, hB, hA, hres]
      · by_cases hS : sonyElfIsValid d
        · cases hres : sonyElfLoadImage st.i10e d with
          | some i => simp [hL, hB, hA, hS, hres]
          | none => simp [hL, hB, hA, hS, hres]
        · simp [hL, hB, hA, hS]

/-- C4 (counterexample): an input with a valid Sony ELF32 prefix but too
short to decode makes `load` fail, yet `source_type` was changed by that
failed call. -/
theorem C4_counterexample :
    (BootImage.mk0.load sonyBadBytes).1 = false ∧
    (BootImage.mk0.load sonyBadBytes).2.sourceType ≠
      BootImage.mk0.sourceType :=
  ⟨by decide, by decide⟩

/-- C4 (witness): on the truncated Sony ELF input, the matched detector's
type is stored even though the load fails. -/
theorem C4_witness :
    (BootImage.mk0.load sonyBadBytes).2.sourceType = tSonyElf :=
  (C4_amended BootImage.mk0 sonyBadBytes).2 tSonyElf (by decide)

/-- C5: immediately after each payload setter with a header size field
(kernel, ramdisk, second bootloader, device tree), the size field equals
the byte length of the argument and the stored payload equals the
argument. -/
theorem C5_payload_setters (st : BootImage) (d : List Nat) :
    ((st.setKernelImage d).i10e.hdrKernelSize = d.length ∧
     (st.setKernelImage d).i10e.kernelImage = d) ∧
    ((st.setRamdiskImage d).i10e.hdrRamdiskSize = d.length ∧
     (st.setRamdiskImage d).i10e.ramdiskImage = d) ∧
    ((st.setSecondBootloaderImage d).i10e.hdrSecondSize = d.length ∧
     (st.setSecondBootloaderImage d).i10e.secondImage = d) ∧
    ((st.setDeviceTreeImage d).i10e.hdrDtSize = d.length ∧
     (st.setDeviceTreeImage d).i10e.dtImage = d) :=
  ⟨⟨rfl, rfl⟩, ⟨rfl, rfl⟩, ⟨rfl, rfl⟩, ⟨rfl, rfl⟩⟩

/-- C6: `setAddresses` sets the four address fields to base plus the
respective offset modulo 2^32 and changes nothing else. -/
theorem C6_setAddresses (st : BootImage) (base ko ro so tg : Nat) :
    (st.setAddresses base ko ro so tg).i10e.kernelAddr =
      (base + ko) % 4294967296 ∧
    (st.setAddresses base ko ro so tg).i10e.ramdiskAddr =
      (base + ro) % 4294967296 ∧
    (st.setAddresses base ko ro so tg).i10e.secondAddr =
      (base + so) % 4294967296 ∧
    (st.setAddresses base ko ro so tg).i10e.tagsAddr =
      (base + tg) % 4294967296 ∧
    (st.setAddresses base ko ro so tg).i10e.boardName = st.i10e.boardName ∧
    (st.setAddresses base ko ro so tg).i10e.cmdline = st.i10e.cmdline ∧
    (st.setAddresses base ko ro so tg).i10e.iplAddr = st.i10e.iplAddr ∧
    (st.setAddresses base ko ro so tg).i10e.rpmAddr = st.i10e.rpmAddr ∧
    (st.setAddresses base ko ro so tg).i10e.appsblAddr =
      st.i10e.appsblAddr ∧
    (st.setAddresses base ko ro so tg).i10e.hdrEntrypoint =
      st.i10e.hdrEntrypoint ∧
    (st.setAddresses base ko ro so tg).i10e.hdrKernelSize =
      st.i10e.hdrKernelSize ∧
    (st.setAddresses base ko ro so tg).i10e.hdrRamdiskSize =
      st.i10e.hdrRamdiskSize ∧
    (st.setAddresses base ko ro so tg).i10e.hdrSecondSize =
      st.i10e.hdrSecondSize ∧
    (st.setAddresses base ko ro so tg).i10e.hdrDtSize = st.i10e.hdrDtSize ∧
    (st.setAddresses base ko ro so tg).i10e.pageSize = st.i10e.pageSize ∧
    (st.setAddresses base ko ro so tg).i10e.hdrUnused = st.i10e.hdrUnused ∧
    (st.setAddresses base ko ro so tg).i10e.hdrId = st.i10e.hdrId ∧
    (st.setAddresses base ko ro so tg).i10e.kernelImage =
      st.i10e.kernelImage ∧
    (st.setAddresses base ko ro so tg).i10e.ramdiskImage =
      st.i10e.ramdiskImage ∧
    (st.setAddresses base ko ro so tg).i10e.secondImage =
      st.i10e.secondImage ∧
    (st.setAddresses base ko ro so tg).i10e.dtImage = st.i10e.dtImage ∧
    (st.setAddresses base ko ro so tg).i10e.abootImage =
      st.i10e.abootImage ∧
    (st.setAddresses base ko ro so tg).i10e.iplImage = st.i10e.iplImage ∧
    (st.setAddresses base ko ro so tg).i10e.rpmImage = st.i10e.rpmImage ∧
    (st.setAddresses base ko ro so tg).i10e.appsblImage =
      st.i10e.appsblImage ∧
    (st.setAddresses base ko ro so tg).i10e.sonySinImage =
      st.i10e.sonySinImage ∧
    (st.setAddresses base ko ro so tg).i10e.sonySinHdr =
      st.i10e.sonySinHdr ∧
    (st.setAddresses base ko ro so tg).type = st.type ∧
    (st.setAddresses base ko ro so tg).sourceType = st.sourceType ∧
    (st.setAddresses base ko ro so tg).error = st.error :=
  ⟨rfl, rfl, rfl, rfl, rfl, rfl, rfl, rfl, rfl, rfl, rfl, rfl, rfl,
    rfl, rfl, rfl, rfl, rfl, rfl, rfl, rfl, rfl, rfl, rfl, rfl, rfl, rfl,
    rfl, rfl, rfl⟩

/-- C7: the default-constructed instance has empty board name and
cmdline, page size 2048, the documented default addresses, zero Sony
addresses and entrypoint, zero unused word, empty payloads, zero size
fields, an all-zero id, and target type Android. -/
theorem C7_defaults :
    BootImage.mk0.i10e.boardName = [] ∧
    BootImage.mk0.i10e.cmdline = [] ∧
    BootImage.mk0.i10e.pageSize = 2048 ∧
    BootImage.mk0.i10e.kernelAddr = 0x10008000 ∧
    BootImage.mk0.i10e.ramdiskAddr = 0x11000000 ∧
    BootImage.mk0.i10e.secondAddr = 0x10F00000 ∧
    BootImage.mk0.i10e.tagsAddr = 0x10000100 ∧
    BootImage.mk0.i10e.iplAddr = 0 ∧
    BootImage.mk0.i10e.rpmAddr = 0 ∧
    BootImage.mk0.i10e.appsblAddr = 0 ∧
    BootImage.mk0.i10e.hdrEntrypoint = 0 ∧
    BootImage.mk0.i10e.hdrUnused = 0 ∧
    BootImage.mk0.i10e.kernelImage = [] ∧
    BootImage.mk0.i10e.ramdiskImage = [] ∧
    BootImage.mk0.i10e.secondImage = [] ∧
    BootImage.mk0.i10e.dtImage = [] ∧
    BootImage.mk0.i10e.abootImage = [] ∧
    BootImage.mk0.i10e.iplImage = [] ∧
    BootImage.mk0.i10e.rpmImage = [] ∧
    BootImage.mk0.i10e.appsblImage = [] ∧
    BootImage.mk0.i10e.sonySinImage = [] ∧
    BootImage.mk0.i10e.sonySinHdr = [] ∧
    BootImage.mk0.i10e.hdrKernelSize = 0 ∧
    BootImage.mk0.i10e.hdrRamdiskSize = 0 ∧
    BootImage.mk0.i10e.hdrSecondSize = 0 ∧
    BootImage.mk0.i10e.hdrDtSize = 0 ∧
    BootImage.mk0.i10e.hdrId = ⟨0, 0, 0, 0, 0, 0, 0, 0⟩ ∧
    BootImage.mk0.type = tAndroid := by
  decide

/-- C8: setting a board name longer than 15 bytes and targeting Android,
`create()` emits exactly the first 15 bytes of the name followed by NUL
in the 16-byte board-name field (bytes 48..63 of the header), while the
`board_name()` accessor still returns the original untruncated string. -/
theorem C8_board_truncation (st : BootImage) (name : List Nat)
    (h : 15 < name.length) :
    ((((st.setBoardName name).setType tAndroid).create).map
      (fun b => (b.drop 48).take 16)) = some (name.take 15 ++ [0]) ∧
    (st.setBoardName name).boardName = name := by
  refine ⟨?_, rfl⟩
  rw [create_of_type_android rfl]
  simp only [Option.map_some']
  rw [create_board_field]
  unfold fixedField
  have h1 : min 15 (((st.setBoardName name).setType
      tAndroid).i10e.boardName).length = 15 := by
    have he : ((st.setBoardName name).setType tAndroid).i10e.boardName =
        name := rfl
    rw [he]
    omega
  rw [show ((st.setBoardName name).setType tAndroid).i10e.boardName = name
    from rfl] at h1 ⊢
  rw [h1]
  rfl

/-- C8 (witness): the truncation holds at a concrete 20-byte name. -/
theorem C8_witness :
    15 < name20.length ∧
    (((((BootImage.mk0.setBoardName name20).setType tAndroid).create).map
      (fun b => (b.drop 48).take 16)) = some (name20.take 15 ++ [0]) ∧
     (BootImage.mk0.setBoardName name20).boardName = name20) :=
  ⟨by decide, C8_board_truncation BootImage.mk0 name20 (by decide)⟩

/-- C9: setting the target type to a value outside the enumeration
(Android, Loki, Bump, SonyElf) makes `create()` report failure without
producing any output bytes. -/
theorem C9_create_unknown (st : BootImage) (t : Nat)
    (h1 : t ≠ tAndroid) (h2 : t ≠ tBump) (h3 : t ≠ tLoki)
    (h4 : t ≠ tSonyElf) :
    (st.setType t).create = none := by
  unfold BootImage.create BootImage.setType
  simp [h1, h2, h3, h4]

/-- C9 (witness): `create()` fails for the out-of-range type value 7. -/
theorem C9_witness : (BootImage.mk0.setType 7).create = none :=
  C9_create_unknown BootImage.mk0 7 (by decide) (by decide) (by decide)
    (by decide)

/-- C10: a successful `load` leaves the stored error record exactly as it
was, since the error is written only on failure and never cleared. -/
theorem C10_error_frame (st : BootImage) (d : List Nat)
    (h : (st.load d).1 = true) : (st.load d).2.error = st.error := by
  unfold BootImage.load at h ⊢
  by_cases hL : lokiIsValid d
  · cases hres : lokiLoadImage st.i10e d with
    | some i => simp [hL, hres]
    | none => simp [hL, hres] at h
  · by_cases hB : bumpIsValid d
    · cases hres : bumpLoadImage st.i10e d with
      | some i => simp [hL, hB, hres]
      | none => simp [hL, hB, hres] at h
    · by_cases hA : androidIsValid d
      · cases hres : androidLoadImage st.i10e d with
        | some i => simp [hL, hB, hA, hres]
        | none => simp [hL, hB, hA, hres] at h
      · by_cases hS : sonyElfIsValid d
        · cases hres : sonyElfLoadImage st.i10e d with
          | some i => simp [hL, hB, hA, hS, hres]
          | none => simp [hL, hB, hA, hS, hres] at h
        · simp [hL, hB, hA, hS] at h

/-- C10 (witness): after successfully loading a minimal Sony ELF image,
the error record is unchanged. -/
theorem C10_witness :
    (BootImage.mk0.load sonyOkBytes).2.error = BootImage.mk0.error :=
  C10_error_frame BootImage.mk0 sonyOkBytes (by decide)

end Mbp
